import Mathlib

/-!
The `alicloud_amqp_instance` resource.

A shallow embedding of `alicloud/resource_alicloud_amqp_instance.go`: the four
field translators, the request builders of Create and Update, the closure
handed to `resource.Retry`, and the Create / Read / Update operations, written
as pure functions over an explicit world (the local `ResourceData` plus the
chronological trace of everything sent to a collaborator).
-/

namespace AmqpInstance

/-! ## Values and maps -/

/-- A Go `interface{}` value as the resource meets it: `nil`, a string, a bool,
an integer, or a value of any other dynamic type (kept by its `fmt.Sprint`
rendering). -/
inductive Value where
  | null
  | str (s : String)
  | bool (b : Bool)
  | int (n : Int)
  | other (rendering : String)
  deriving DecidableEq, Repr

/-- A `map[string]interface{}` whose entries are plain values. -/
abbrev Object := List (String × Value)

/-- Go map indexing `m[k]`: the zero value `nil` when the key is missing. -/
def Object.get (o : Object) (k : String) : Value :=
  (o.lookup k).getD Value.null

/-- Go map assignment `m[k] = v`: replaces the entry of `k`, or adds one. -/
def mapSet {α : Type} (m : List (String × α)) (k : String) (v : α) : List (String × α) :=
  match m with
  | [] => [(k, v)]
  | (k1, v1) :: rest => if k1 = k then (k, v) :: rest else (k1, v1) :: mapSet rest k v

/-- The rendering `fmt.Sprint(v)`. -/
def fmtSprint : Value → String
  | .null => "<nil>"
  | .str s => s
  | .bool true => "true"
  | .bool false => "false"
  | .int n => toString n
  | .other r => r

/-! ## Field translators (source lines 398-434) -/

def convertAmqpInstanceTypeResponse (source : Value) : Value :=
  match source with
  | .str "PROFESSIONAL" => .str "professional"
  | .str "VIP" => .str "vip"
  | _ => source

def convertAmqpInstanceRenewalDurationUnitResponse (source : Value) : Value :=
  match source with
  | .str "M" => .str "Month"
  | .str "Y" => .str "Year"
  | _ => source

def convertAmqpInstanceRenewalDurationUnitRequest (source : Value) : Value :=
  match source with
  | .str "Month" => .str "M"
  | .str "Year" => .str "Y"
  | _ => source

def convertAmqpInstanceSupportEipRequest (source : Value) : Value :=
  match source with
  | .bool true => .str "eip_true"
  | .bool false => .str "eip_false"
  | _ => source

/-! ## Schema (source lines 27-105) -/

/-- The attribute types the schema uses. -/
inductive ValueType where
  | TypeString
  | TypeInt
  | TypeBool
  deriving DecidableEq, Repr

/-- The declared `Type` of each attribute of the schema. -/
def schemaType (key : String) : ValueType :=
  if key = "period" ∨ key = "renewal_duration" then ValueType.TypeInt
  else if key = "support_eip" then ValueType.TypeBool
  else ValueType.TypeString

/-- The zero value of a schema type. -/
def ValueType.Zero : ValueType → Value
  | .TypeString => .str ""
  | .TypeInt => .int 0
  | .TypeBool => .bool false

/-! ## Local resource data (`schema.ResourceData`, terraform-plugin-sdk) -/

/-- What the SDK reports when it reads one attribute through every level. -/
structure FieldReadResult where
  val : Value
  Exists : Bool
  Computed : Bool
  deriving DecidableEq, Repr

/-- The local resource: its identity, the attribute values of the prior state,
the merged view of state, configuration and diff, the values written by
`d.Set`, and the bookkeeping flags. -/
structure ResourceData where
  id : String
  state : Object
  planned : List (String × FieldReadResult)
  written : Object
  isNewResource : Bool
  partialOn : Bool
  partialKeys : List String
  deriving DecidableEq, Repr

namespace ResourceData

def getRaw (d : ResourceData) (key : String) : FieldReadResult :=
  match d.written.lookup key with
  | some v => { val := v, Exists := true, Computed := false }
  | none =>
    match d.planned.lookup key with
    | some r => r
    | none => { val := (schemaType key).Zero, Exists := false, Computed := false }

/-- Reading `d.GetOkExists(key)`: the value, and whether it is set at all. -/
def GetOkExists (d : ResourceData) (key : String) : Value × Bool :=
  ((d.getRaw key).val, (d.getRaw key).Exists && !(d.getRaw key).Computed)

/-- Reading `d.GetOk(key)`: the value, and whether it is set to something other
than the zero value of its type. -/
def GetOk (d : ResourceData) (key : String) : Value × Bool :=
  ((d.getRaw key).val,
    (d.getRaw key).Exists && !(d.getRaw key).Computed
      && decide ((d.getRaw key).val ≠ (schemaType key).Zero))

def Get (d : ResourceData) (key : String) : Value :=
  (d.getRaw key).val

/-- Reading `d.HasChange(key)`: the prior state's value differs from the
planned one. -/
def HasChange (d : ResourceData) (key : String) : Bool :=
  let o := (d.state.lookup key).getD (schemaType key).Zero
  let n := match d.planned.lookup key with
    | some r => r.val
    | none => (schemaType key).Zero
  decide (o ≠ n)

def IsNewResource (d : ResourceData) : Bool :=
  d.isNewResource

def Id (d : ResourceData) : String :=
  d.id

def SetId (d : ResourceData) (v : String) : ResourceData :=
  { d with id := v }

/-- Writing `d.Set(key, value)`: a `nil` value is stored as the zero value of
the attribute's type. -/
def Set (d : ResourceData) (key : String) (value : Value) : ResourceData :=
  { d with
    written := mapSet d.written key
      (match value with
        | Value.null => (schemaType key).Zero
        | v => v) }

def Partial (d : ResourceData) (flag : Bool) : ResourceData :=
  { d with partialOn := flag }

def SetPartial (d : ResourceData) (key : String) : ResourceData :=
  if d.partialOn then { d with partialKeys := d.partialKeys ++ [key] } else d

end ResourceData

/-! ## Collaborators -/

/-- An error value handed back by a collaborator. -/
structure Err where
  code : String
  message : String
  deriving DecidableEq, Repr

/-- A value stored in a request map: a plain value, or a list of maps (the
`Parameter` entry). -/
inductive Entry where
  | val (v : Value)
  | maps (ms : List Object)
  deriving DecidableEq, Repr

/-- A request payload, `map[string]interface{}`. -/
abbrev Request := List (String × Entry)

/-- The part of a response map the resource reads: `response["Code"]` (`nil`
when missing) and `response["Data"]` when it is a `map[string]interface{}`. -/
structure Response where
  Code : Value
  Data : Option Object
  deriving DecidableEq, Repr

/-- Everything that leaves the resource, in chronological order. -/
inductive Event where
  | DoRequest (action endpoint : String) (request : Request)
  | wait
  | WaitForState (id : String)
  | DescribeAmqpInstance (id : String)
  | QueryAvailableInstances (id productCode productType : String)
  deriving DecidableEq, Repr

/-- The collaborators of the resource, none of which is defined in the source
file: the client (region, connection factory, international endpoint
constant), the remote API behind `conn.DoRequest` (its answer may depend on
how much has happened so far, on the endpoint, the action and the payload),
the error classifiers, the token and integer helpers, the number of further
attempts the create and update deadlines allow, the readiness poll, and the
two query services. -/
structure Env where
  RegionId : String
  NewBssopenapiClient : Except Err String
  BssOpenAPIEndpointInternational : String
  DoRequest : Nat → String → String → Request → Except Err Response
  NeedRetry : Err → Bool
  IsExpectedErrors : Err → List String → Bool
  NotFoundError : Err → Bool
  buildClientToken : String → String
  formatInt : Value → Int
  TimeoutCreate : Nat
  TimeoutUpdate : Nat
  WaitForState : String → Option Err
  DescribeAmqpInstance : String → Except Err Object
  QueryAvailableInstances : String → String → String → Except Err Object

/-- Reading `response["Code"]`: `nil` on a nil map. -/
def responseCode (response : Option Response) : Value :=
  (response.map Response.Code).getD Value.null

/-- Reading `response["Data"]` as a map, when it is one. -/
def responseData (response : Option Response) : Option Object :=
  response.bind Response.Data

/-- The errors the resource returns. -/
inductive Failure where
  | WrapError (err : Err)
  | WrapErrorf (err : Err) (msg : String) (args : List String)
  | failed (action : String) (response : Option Response)
  | RequiredWhen (field other : String) (v : Value)
  deriving DecidableEq, Repr

/-- How an operation ends: `nil`, an error, or a failed type assertion. -/
inductive Result where
  | ok
  | error (e : Failure)
  | panic
  deriving DecidableEq, Repr

/-- The local resource together with the trace of what was sent out. -/
structure World where
  d : ResourceData
  trace : List Event
  deriving DecidableEq, Repr

/-! ## The retried remote call (source lines 180-195, 274-289, 362-377) -/

/-- The variables the retry closure captures and updates: the connection's
target endpoint, the last response, and the trace. -/
structure Invocation where
  Endpoint : String
  response : Option Response
  trace : List Event
  deriving DecidableEq, Repr

/-- What the closure hands back to `resource.Retry` when the call failed. -/
inductive RetryError where
  | RetryableError (err : Err)
  | NonRetryableError (err : Err)
  deriving DecidableEq, Repr

/-- The closure passed to `resource.Retry`, the same at the three call sites
up to the action and the payload: one `conn.DoRequest`, then the
classification of its failure. -/
def retryFunc (env : Env) (action : String) (request : Request) (s : Invocation) :
    Invocation × Option RetryError :=
  let sent := s.trace ++ [Event.DoRequest action s.Endpoint request]
  match env.DoRequest s.trace.length s.Endpoint action request with
  | .error err =>
    if env.NeedRetry err then
      ({ Endpoint := s.Endpoint, response := none, trace := sent ++ [Event.wait] },
        some (RetryError.RetryableError err))
    else if env.IsExpectedErrors err ["NotApplicable"] then
      ({ Endpoint := env.BssOpenAPIEndpointInternational, response := none, trace := sent },
        some (RetryError.RetryableError err))
    else
      ({ Endpoint := s.Endpoint, response := none, trace := sent },
        some (RetryError.NonRetryableError err))
  | .ok response =>
    ({ Endpoint := s.Endpoint, response := some response, trace := sent }, none)

/-- The SDK's `resource.Retry(timeout, f)`: `f` runs at least once; it runs
again after a retryable error while the deadline allows a further attempt
(`budget` of them), and the last error is returned when it does not. -/
def Retry (budget : Nat) (f : Invocation → Invocation × Option RetryError) (s : Invocation) :
    Invocation × Option Err :=
  match budget with
  | 0 =>
    match f s with
    | (s1, none) => (s1, none)
    | (s1, some (RetryError.NonRetryableError err)) => (s1, some err)
    | (s1, some (RetryError.RetryableError err)) => (s1, some err)
  | n + 1 =>
    match f s with
    | (s1, none) => (s1, none)
    | (s1, some (RetryError.NonRetryableError err)) => (s1, some err)
    | (s1, some (RetryError.RetryableError _)) => Retry n f s1

/-! ## Read (source lines 213-240) -/

def resourceAlicloudAmqpInstanceRead (env : Env) (w : World) : World × Result :=
  let d := w.d
  let trace := w.trace ++ [Event.DescribeAmqpInstance d.Id]
  match env.DescribeAmqpInstance d.Id with
  | .error err =>
    if env.NotFoundError err then
      ({ d := d.SetId "", trace := trace }, Result.ok)
    else
      ({ d := d, trace := trace }, Result.error (Failure.WrapError err))
  | .ok object =>
    let d := d.Set "instance_type" (convertAmqpInstanceTypeResponse (object.get "InstanceType"))
    let d := d.Set "status" (object.get "Status")
    let d := d.Set "support_eip" (object.get "SupportEIP")
    let trace := trace ++ [Event.QueryAvailableInstances d.Id "ons" "ons_onsproxy_pre"]
    match env.QueryAvailableInstances d.Id "ons" "ons_onsproxy_pre" with
    | .error err => ({ d := d, trace := trace }, Result.error (Failure.WrapError err))
    | .ok queryAvailableInstancesObject =>
      let d := d.Set "payment_type" (queryAvailableInstancesObject.get "SubscriptionType")
      let d := match queryAvailableInstancesObject.lookup "RenewalDuration" with
        | some v => d.Set "renewal_duration" (Value.int (env.formatInt v))
        | none => d
      let d := d.Set "renewal_duration_unit"
        (convertAmqpInstanceRenewalDurationUnitResponse (object.get "RenewalDurationUnit"))
      let d := d.Set "renewal_status" (queryAvailableInstancesObject.get "RenewStatus")
      ({ d := d, trace := trace }, Result.ok)

/-! ## Create (source lines 109-212) -/

/-- One element of a `Parameter` list. -/
def parameter (code : String) (value : Value) : Object :=
  [("Code", Value.str code), ("Value", value)]

/-- The `parameterMapList` of Create (source lines 118-158). -/
def createParameterMapList (env : Env) (d : ResourceData) : List Object :=
  let parameterMapList : List Object := []
  let parameterMapList := parameterMapList ++ [parameter "Region" (Value.str env.RegionId)]
  let parameterMapList :=
    if (d.GetOk "instance_type").2 then
      parameterMapList ++ [parameter "InstanceType" (d.GetOk "instance_type").1]
    else parameterMapList
  let parameterMapList :=
    if (d.GetOk "max_eip_tps").2 then
      parameterMapList ++ [parameter "MaxEipTps" (d.GetOk "max_eip_tps").1]
    else parameterMapList
  let parameterMapList :=
    if (d.GetOk "max_tps").2 then
      parameterMapList ++ [parameter "MaxTps" (d.GetOk "max_tps").1]
    else parameterMapList
  let parameterMapList :=
    if (d.GetOk "queue_capacity").2 then
      parameterMapList ++ [parameter "QueueCapacity" (d.GetOk "queue_capacity").1]
    else parameterMapList
  let parameterMapList :=
    if (d.GetOkExists "support_eip").2 then
      parameterMapList ++ [parameter "SupportEip"
        (convertAmqpInstanceSupportEipRequest (d.GetOkExists "support_eip").1)]
    else parameterMapList
  let parameterMapList :=
    if (d.GetOkExists "storage_size").2 then
      parameterMapList ++ [parameter "StorageSize" (d.GetOkExists "storage_size").1]
    else parameterMapList
  parameterMapList

/-- The `request` map of Create (source lines 159-177). -/
def createRequest (env : Env) (d : ResourceData) : Request :=
  let request : Request := []
  let request := mapSet request "Parameter" (Entry.maps (createParameterMapList env d))
  let request := mapSet request "SubscriptionType" (Entry.val (d.Get "payment_type"))
  let request := mapSet request "ProductCode" (Entry.val (Value.str "ons"))
  let request := mapSet request "ProductType" (Entry.val (Value.str "ons_onsproxy_pre"))
  let request :=
    if (d.GetOk "logistics").2 then
      mapSet request "Logistics" (Entry.val (d.GetOk "logistics").1)
    else request
  let request :=
    if (d.GetOk "period").2 then
      mapSet request "Period" (Entry.val (d.GetOk "period").1)
    else request
  let request :=
    if (d.GetOk "renewal_duration").2 then
      mapSet request "RenewPeriod" (Entry.val (d.GetOk "renewal_duration").1)
    else request
  let request :=
    if (d.GetOk "renewal_status").2 then
      mapSet request "RenewalStatus" (Entry.val (d.GetOk "renewal_status").1)
    else request
  let request :=
    mapSet request "ClientToken" (Entry.val (Value.str (env.buildClientToken "CreateInstance")))
  request

/-- The retried `CreateInstance` call of Create (source lines 178-195), from a
fresh connection at `endpoint`. -/
def createInvoke (env : Env) (endpoint : String) (w : World) : Invocation × Option Err :=
  Retry env.TimeoutCreate (retryFunc env "CreateInstance" (createRequest env w.d))
    { Endpoint := endpoint, response := none, trace := w.trace }

def resourceAlicloudAmqpInstanceCreate (env : Env) (w : World) : World × Result :=
  let action := "CreateInstance"
  match env.NewBssopenapiClient with
  | .error err => (w, Result.error (Failure.WrapError err))
  | .ok endpoint =>
    match createInvoke env endpoint w with
    | (s, some err) =>
      ({ d := w.d, trace := s.trace },
        Result.error (Failure.WrapErrorf err "DefaultErrorMsg"
          ["alicloud_amqp_instance", action, "AlibabaCloudSdkGoERROR"]))
    | (s, none) =>
      if fmtSprint (responseCode s.response) ≠ "Success" then
        ({ d := w.d, trace := s.trace }, Result.error (Failure.failed action s.response))
      else
        match responseData s.response with
        | none => ({ d := w.d, trace := s.trace }, Result.panic)
        | some responseData =>
          let d := w.d.SetId (fmtSprint (responseData.get "InstanceId"))
          let trace := s.trace ++ [Event.WaitForState d.Id]
          match env.WaitForState d.Id with
          | some err =>
            ({ d := d, trace := trace }, Result.error (Failure.WrapErrorf err "IdMsg" [d.Id]))
          | none => resourceAlicloudAmqpInstanceRead env { d := d, trace := trace }

/-! ## Update (source lines 241-393) -/

/-- The `update` flag and the `request` map of the renewal part (source lines
246-267); `none` when the type assertion `.(string)` of line 266 fails. -/
def setRenewalRequest (d : ResourceData) : Option (Bool × Request) :=
  let update := false
  let request : Request := [("InstanceIDs", Entry.val (Value.str d.Id))]
  let update := if d.HasChange "renewal_status" then true else update
  let request := mapSet request "RenewalStatus" (Entry.val (d.Get "renewal_status"))
  let update := if d.HasChange "payment_type" then true else update
  let request :=
    if d.HasChange "payment_type" then
      mapSet request "SubscriptionType" (Entry.val (d.Get "payment_type"))
    else request
  let request := mapSet request "ProductCode" (Entry.val (Value.str "ons"))
  let request := mapSet request "ProductType" (Entry.val (Value.str "ons_onsproxy_pre"))
  let update := if d.HasChange "renewal_duration" then true else update
  let request :=
    if d.HasChange "renewal_duration" then
      mapSet request "RenewalPeriod" (Entry.val (d.Get "renewal_duration"))
    else request
  if d.HasChange "renewal_duration_unit" then
    match d.Get "renewal_duration_unit" with
    | Value.str unit =>
      some (true, mapSet request "RenewalPeriodUnit"
        (Entry.val (convertAmqpInstanceRenewalDurationUnitRequest (Value.str unit))))
    | _ => none
  else some (update, request)

/-- The `SetRenewal` block (source lines 268-301): `some r` when Update
returns `r` from inside it, `none` when control goes on. -/
def updateSetRenewal (env : Env) (w : World) (update : Bool) (request : Request) :
    World × Option Result :=
  if update then
    let action := "SetRenewal"
    match env.NewBssopenapiClient with
    | .error err => (w, some (Result.error (Failure.WrapError err)))
    | .ok endpoint =>
      match Retry env.TimeoutUpdate (retryFunc env action request)
          { Endpoint := endpoint, response := none, trace := w.trace } with
      | (s, some err) =>
        ({ d := w.d, trace := s.trace },
          some (Result.error (Failure.WrapErrorf err "DefaultErrorMsg"
            [w.d.Id, action, "AlibabaCloudSdkGoERROR"])))
      | (s, none) =>
        if fmtSprint (responseCode s.response) ≠ "Success" then
          ({ d := w.d, trace := s.trace }, some (Result.error (Failure.failed action s.response)))
        else
          let d := w.d.SetPartial "renewal_status"
          let d := d.SetPartial "payment_type"
          let d := d.SetPartial "renewal_duration"
          let d := d.SetPartial "renewal_duration_unit"
          ({ d := d, trace := s.trace }, none)
  else (w, none)

/-- The `update` flag and the `modifyInstanceReq` map of the capacity part
(source lines 302-349); an error carries what Update returns from line 316, or
the failed type assertion `.(bool)` of line 315. -/
def modifyInstanceReq (d : ResourceData) : Except Result (Bool × Request) :=
  let update := false
  let modifyInstanceReq : Request := [("InstanceId", Entry.val (Value.str d.Id))]
  let update := if d.HasChange "max_eip_tps" then true else update
  let parameterMapList : List Object := []
  let checked : Except Result (List Object) :=
    if (d.GetOk "max_eip_tps").2 then
      Except.ok (parameterMapList ++ [parameter "MaxEipTps" (d.GetOk "max_eip_tps").1])
    else if !(d.GetOkExists "support_eip").2 then
      Except.error (Result.error
        (Failure.RequiredWhen "max_eip_tps" "support_eip" (d.GetOkExists "support_eip").1))
    else
      match (d.GetOkExists "support_eip").1 with
      | Value.bool true =>
        Except.error (Result.error
          (Failure.RequiredWhen "max_eip_tps" "support_eip" (Value.bool true)))
      | Value.bool false => Except.ok parameterMapList
      | _ => Except.error Result.panic
  match checked with
  | .error r => Except.error r
  | .ok parameterMapList =>
    let update := if d.HasChange "max_tps" then true else update
    let parameterMapList :=
      if (d.GetOk "max_tps").2 then
        parameterMapList ++ [parameter "MaxTps" (d.GetOk "max_tps").1]
      else parameterMapList
    let update := if d.HasChange "queue_capacity" then true else update
    let parameterMapList :=
      if (d.GetOk "queue_capacity").2 then
        parameterMapList ++ [parameter "QueueCapacity" (d.GetOk "queue_capacity").1]
      else parameterMapList
    let update := if d.HasChange "support_eip" || d.IsNewResource then true else update
    let parameterMapList :=
      if (d.GetOkExists "support_eip").2 then
        parameterMapList ++ [parameter "SupportEip"
          (convertAmqpInstanceSupportEipRequest (d.GetOkExists "support_eip").1)]
      else parameterMapList
    let modifyInstanceReq := mapSet modifyInstanceReq "Parameter" (Entry.maps parameterMapList)
    let modifyInstanceReq :=
      mapSet modifyInstanceReq "SubscriptionType" (Entry.val (d.Get "payment_type"))
    let modifyInstanceReq := mapSet modifyInstanceReq "ProductCode" (Entry.val (Value.str "ons"))
    let modifyInstanceReq :=
      mapSet modifyInstanceReq "ProductType" (Entry.val (Value.str "ons_onsproxy_pre"))
    Except.ok (update, modifyInstanceReq)

/-- The `ModifyInstance` block (source lines 350-390). Line 359 stores the
client token in `request`, the map of the renewal part, which nothing reads
afterwards; the call of line 364 sends `modifyInstanceReq`. -/
def updateModifyInstance (env : Env) (w : World) (update : Bool)
    (request modifyInstanceReq : Request) : World × Option Result :=
  if update then
    let modifyInstanceReq :=
      if (w.d.GetOk "modify_type").2 then
        mapSet modifyInstanceReq "ModifyType" (Entry.val (w.d.GetOk "modify_type").1)
      else modifyInstanceReq
    let action := "ModifyInstance"
    match env.NewBssopenapiClient with
    | .error err => (w, some (Result.error (Failure.WrapError err)))
    | .ok endpoint =>
      let _request :=
        mapSet request "ClientToken" (Entry.val (Value.str (env.buildClientToken "ModifyInstance")))
      match Retry env.TimeoutUpdate (retryFunc env action modifyInstanceReq)
          { Endpoint := endpoint, response := none, trace := w.trace } with
      | (s, some err) =>
        ({ d := w.d, trace := s.trace },
          some (Result.error (Failure.WrapErrorf err "DefaultErrorMsg"
            [w.d.Id, action, "AlibabaCloudSdkGoERROR"])))
      | (s, none) =>
        if fmtSprint (responseCode s.response) ≠ "Success" then
          ({ d := w.d, trace := s.trace }, some (Result.error (Failure.failed action s.response)))
        else
          let d := w.d.SetPartial "max_eip_tps"
          let d := d.SetPartial "max_tps"
          let d := d.SetPartial "payment_type"
          let d := d.SetPartial "queue_capacity"
          let d := d.SetPartial "support_eip"
          ({ d := d, trace := s.trace }, none)
  else (w, none)

def resourceAlicloudAmqpInstanceUpdate (env : Env) (w : World) : World × Result :=
  let w : World := { d := w.d.Partial true, trace := w.trace }
  match setRenewalRequest w.d with
  | none => (w, Result.panic)
  | some (update, request) =>
    match updateSetRenewal env w update request with
    | (w, some r) => (w, r)
    | (w, none) =>
      match modifyInstanceReq w.d with
      | .error r => (w, r)
      | .ok (update, modifyInstanceReq) =>
        match updateModifyInstance env w update request modifyInstanceReq with
        | (w, some r) => (w, r)
        | (w, none) =>
          resourceAlicloudAmqpInstanceRead env { d := w.d.Partial false, trace := w.trace }

def resourceAlicloudAmqpInstanceDelete (_env : Env) (w : World) : World × Result :=
  (w, Result.ok)

/-! ## Reading a trace -/

/-- The remote provisioning calls of a trace, in order: the action and the
payload of every `conn.DoRequest`. -/
def requests (trace : List Event) : List (String × Request) :=
  trace.filterMap fun e =>
    match e with
    | Event.DoRequest action _ request => some (action, request)
    | _ => none

/-- The actions of the remote provisioning calls of a trace, in order. -/
def requestActions (trace : List Event) : List String :=
  (requests trace).map Prod.fst

/-! ## Sample collaborators and configurations -/

/-- A remote side on which every call succeeds at once and the created
instance, "amqp-123", is found serving. -/
def sampleEnv : Env where
  RegionId := "cn-hangzhou"
  NewBssopenapiClient := Except.ok "business.aliyuncs.com"
  BssOpenAPIEndpointInternational := "business.ap-southeast-1.aliyuncs.com"
  DoRequest := fun _ _ _ _ =>
    Except.ok { Code := Value.str "Success", Data := some [("InstanceId", Value.str "amqp-123")] }
  NeedRetry := fun err => decide (err.code = "Throttling")
  IsExpectedErrors := fun err codes => codes.contains err.code
  NotFoundError := fun err => decide (err.code = "InstanceNotExist")
  buildClientToken := fun action => "TF-" ++ action
  formatInt := fun v =>
    match v with
    | Value.int n => n
    | _ => 0
  TimeoutCreate := 3
  TimeoutUpdate := 3
  WaitForState := fun _ => none
  DescribeAmqpInstance := fun _ =>
    Except.ok [("InstanceType", Value.str "VIP"), ("Status", Value.str "SERVING"),
      ("SupportEIP", Value.bool true)]
  QueryAvailableInstances := fun _ _ _ =>
    Except.ok [("SubscriptionType", Value.str "Subscription"),
      ("RenewStatus", Value.str "AutoRenewal")]

/-- An attribute that is set to `v`. -/
def setTo (v : Value) : FieldReadResult :=
  { val := v, Exists := true, Computed := false }

/-- The declared configuration of the spec's create scenario, before the
resource exists. -/
def scenarioConfig : ResourceData where
  id := ""
  state := []
  planned :=
    [("instance_type", setTo (Value.str "vip")), ("max_tps", setTo (Value.str "1000")),
      ("queue_capacity", setTo (Value.str "100")), ("support_eip", setTo (Value.bool true)),
      ("max_eip_tps", setTo (Value.str "50")), ("payment_type", setTo (Value.str "Subscription"))]
  written := []
  isNewResource := true
  partialOn := false
  partialKeys := []

/-- A remote side whose instance lookup reports that the instance is gone. -/
def goneEnv : Env :=
  { sampleEnv with
    DescribeAmqpInstance := fun _ => Except.error { code := "InstanceNotExist", message := "" } }

/-- A remote side that answers "NotApplicable" on every endpoint but the
international one. -/
def mismatchEnv : Env :=
  { sampleEnv with
    DoRequest := fun _ endpoint _ _ =>
      if endpoint = "business.ap-southeast-1.aliyuncs.com" then
        Except.ok { Code := Value.str "Success", Data := some [("InstanceId", Value.str "amqp-123")] }
      else Except.error { code := "NotApplicable", message := "" } }

/-- A remote side whose readiness poll ends in failure. -/
def stuckEnv : Env :=
  { sampleEnv with WaitForState := fun _ => some { code := "Failed", message := "" } }

/-- A remote side whose instance lookup fails for another reason than a
missing instance. -/
def brokenEnv : Env :=
  { sampleEnv with
    DescribeAmqpInstance := fun _ => Except.error { code := "InternalError", message := "" } }

/-- The create scenario with the EIP switched off, no EIP throughput, and a
storage size. -/
def eipOffConfig : ResourceData :=
  { scenarioConfig with
    planned :=
      [("instance_type", setTo (Value.str "vip")), ("max_tps", setTo (Value.str "1000")),
        ("queue_capacity", setTo (Value.str "100")), ("support_eip", setTo (Value.bool false)),
        ("storage_size", setTo (Value.str "200")),
        ("payment_type", setTo (Value.str "Subscription"))] }

/-- The prior state of the existing instance "amqp-123". -/
def priorState : Object :=
  [("instance_type", Value.str "vip"), ("max_tps", Value.str "1000"),
    ("queue_capacity", Value.str "100"), ("support_eip", Value.bool true),
    ("max_eip_tps", Value.str "50"), ("payment_type", Value.str "Subscription"),
    ("renewal_status", Value.str "AutoRenewal"), ("renewal_duration", Value.int 1),
    ("renewal_duration_unit", Value.str "Month")]

/-- An update of the existing instance "amqp-123" in which only `max_tps`
(1000 to 2000) and `renewal_duration` (1 to 2) change. -/
def changedConfig : ResourceData where
  id := "amqp-123"
  state := priorState
  planned :=
    [("instance_type", setTo (Value.str "vip")), ("max_tps", setTo (Value.str "2000")),
      ("queue_capacity", setTo (Value.str "100")), ("support_eip", setTo (Value.bool true)),
      ("max_eip_tps", setTo (Value.str "50")), ("payment_type", setTo (Value.str "Subscription")),
      ("renewal_status", setTo (Value.str "AutoRenewal")), ("renewal_duration", setTo (Value.int 2)),
      ("renewal_duration_unit", setTo (Value.str "Month"))]
  written := []
  isNewResource := false
  partialOn := false
  partialKeys := []

/-- An update of the existing instance "amqp-123" in which only `max_tps`
(1000 to 2000) changes. -/
def tpsConfig : ResourceData :=
  { changedConfig with
    planned :=
      [("instance_type", setTo (Value.str "vip")), ("max_tps", setTo (Value.str "2000")),
        ("queue_capacity", setTo (Value.str "100")), ("support_eip", setTo (Value.bool true)),
        ("max_eip_tps", setTo (Value.str "50")),
        ("payment_type", setTo (Value.str "Subscription")),
        ("renewal_status", setTo (Value.str "AutoRenewal")),
        ("renewal_duration", setTo (Value.int 1)),
        ("renewal_duration_unit", setTo (Value.str "Month"))] }

/-- An update of an instance that has the EIP on and no EIP throughput, in
which only `renewal_duration` (1 to 2) changes. -/
def misconfigured : ResourceData where
  id := "amqp-123"
  state :=
    [("instance_type", Value.str "vip"), ("max_tps", Value.str "1000"),
      ("queue_capacity", Value.str "100"), ("support_eip", Value.bool true),
      ("payment_type", Value.str "Subscription"),
      ("renewal_status", Value.str "AutoRenewal"), ("renewal_duration", Value.int 1),
      ("renewal_duration_unit", Value.str "Month")]
  planned :=
    [("instance_type", setTo (Value.str "vip")), ("max_tps", setTo (Value.str "1000")),
      ("queue_capacity", setTo (Value.str "100")), ("support_eip", setTo (Value.bool true)),
      ("payment_type", setTo (Value.str "Subscription")),
      ("renewal_status", setTo (Value.str "AutoRenewal")), ("renewal_duration", setTo (Value.int 2)),
      ("renewal_duration_unit", setTo (Value.str "Month"))]
  written := []
  isNewResource := false
  partialOn := false
  partialKeys := []

/-! ## Theorems -/

/-- C1: the renewal-unit translators are mutually inverse on the values they
recognise: response after request is the identity on "Month" and "Year", and
request after response is the identity on "M" and "Y". -/
theorem renewalDurationUnit_roundTrip :
    (∀ x ∈ [Value.str "Month", Value.str "Year"],
      convertAmqpInstanceRenewalDurationUnitResponse
        (convertAmqpInstanceRenewalDurationUnitRequest x) = x) ∧
    (∀ y ∈ [Value.str "M", Value.str "Y"],
      convertAmqpInstanceRenewalDurationUnitRequest
        (convertAmqpInstanceRenewalDurationUnitResponse y) = y) := by
  constructor
  · intro x hx
    simp only [List.mem_cons, List.mem_singleton, List.not_mem_nil, or_false] at hx
    rcases hx with rfl | rfl <;> rfl
  · intro y hy
    simp only [List.mem_cons, List.mem_singleton, List.not_mem_nil, or_false] at hy
    rcases hy with rfl | rfl <;> rfl

/-- C2: each of the four translators is total and equals its finite lookup
table with an identity fallback: the listed keys map to the listed values and
every other input, of any dynamic type, is returned unchanged. -/
theorem translators_lookupTable_identityFallback :
    (convertAmqpInstanceTypeResponse (.str "PROFESSIONAL") = .str "professional" ∧
      convertAmqpInstanceTypeResponse (.str "VIP") = .str "vip" ∧
      ∀ v, v ≠ .str "PROFESSIONAL" → v ≠ .str "VIP" →
        convertAmqpInstanceTypeResponse v = v) ∧
    (convertAmqpInstanceRenewalDurationUnitRequest (.str "Month") = .str "M" ∧
      convertAmqpInstanceRenewalDurationUnitRequest (.str "Year") = .str "Y" ∧
      ∀ v, v ≠ .str "Month" → v ≠ .str "Year" →
        convertAmqpInstanceRenewalDurationUnitRequest v = v) ∧
    (convertAmqpInstanceRenewalDurationUnitResponse (.str "M") = .str "Month" ∧
      convertAmqpInstanceRenewalDurationUnitResponse (.str "Y") = .str "Year" ∧
      ∀ v, v ≠ .str "M" → v ≠ .str "Y" →
        convertAmqpInstanceRenewalDurationUnitResponse v = v) ∧
    (convertAmqpInstanceSupportEipRequest (.bool true) = .str "eip_true" ∧
      convertAmqpInstanceSupportEipRequest (.bool false) = .str "eip_false" ∧
      ∀ v, v ≠ .bool true → v ≠ .bool false →
        convertAmqpInstanceSupportEipRequest v = v) := by
  refine ⟨⟨rfl, rfl, ?_⟩, ⟨rfl, rfl, ?_⟩, ⟨rfl, rfl, ?_⟩, ⟨rfl, rfl, ?_⟩⟩
  · intro v h1 h2
    unfold convertAmqpInstanceTypeResponse
    split <;> simp_all
  · intro v h1 h2
    unfold convertAmqpInstanceRenewalDurationUnitRequest
    split <;> simp_all
  · intro v h1 h2
    unfold convertAmqpInstanceRenewalDurationUnitResponse
    split <;> simp_all
  · intro v h1 h2
    unfold convertAmqpInstanceSupportEipRequest
    split <;> simp_all

/-! ### The retry loop -/

theorem Retry_zero_fst (f : Invocation → Invocation × Option RetryError) (s : Invocation) :
    (Retry 0 f s).1 = (f s).1 := by
  unfold Retry
  rcases hf : f s with ⟨s1, _ | _ | _⟩ <;> rfl

theorem Retry_succ_retryable (n : Nat) (f : Invocation → Invocation × Option RetryError)
    (s : Invocation) (err : Err) (h : (f s).2 = some (RetryError.RetryableError err)) :
    Retry (n + 1) f s = Retry n f (f s).1 := by
  rcases hf : f s with ⟨s1, r⟩
  rw [hf] at h
  simp only at h
  subst h
  rw [Retry, hf]

theorem Retry_nonRetryable (n : Nat) (f : Invocation → Invocation × Option RetryError)
    (s : Invocation) (err : Err) (h : (f s).2 = some (RetryError.NonRetryableError err)) :
    Retry n f s = ((f s).1, some err) := by
  rcases hf : f s with ⟨s1, r⟩
  rw [hf] at h
  simp only at h
  subst h
  cases n <;> rw [Retry, hf]

theorem Retry_success (n : Nat) (f : Invocation → Invocation × Option RetryError)
    (s : Invocation) (h : (f s).2 = none) :
    Retry n f s = ((f s).1, none) := by
  rcases hf : f s with ⟨s1, r⟩
  rw [hf] at h
  simp only at h
  subst h
  cases n <;> rw [Retry, hf]

/-- One run of the closure sends exactly one request, to the current endpoint,
possibly followed by one backoff wait; the endpoint afterwards is the old one
or the international one. -/
theorem retryFunc_shape (env : Env) (action : String) (request : Request) (s : Invocation) :
    ((retryFunc env action request s).1.trace
        = s.trace ++ [Event.DoRequest action s.Endpoint request] ∨
      (retryFunc env action request s).1.trace
        = s.trace ++ [Event.DoRequest action s.Endpoint request, Event.wait]) ∧
    ((retryFunc env action request s).1.Endpoint = s.Endpoint ∨
      (retryFunc env action request s).1.Endpoint = env.BssOpenAPIEndpointInternational) := by
  unfold retryFunc
  cases env.DoRequest s.trace.length s.Endpoint action request with
  | ok response => simp
  | error err =>
    by_cases h1 : env.NeedRetry err = true
    · simp [h1]
    · by_cases h2 : env.IsExpectedErrors err ["NotApplicable"] = true
      · simp [h1, h2]
      · simp [h1, h2]

/-- Once the connection targets the international endpoint, the loop's next
request and every later one go there, and the endpoint is still the
international one when the loop ends. -/
theorem Retry_sticky (env : Env) (action : String) (request : Request) :
    ∀ (budget : Nat) (s : Invocation), s.Endpoint = env.BssOpenAPIEndpointInternational →
      ∃ evs, (Retry budget (retryFunc env action request) s).1.trace
          = s.trace ++ Event.DoRequest action env.BssOpenAPIEndpointInternational request :: evs ∧
        (∀ a ep r, Event.DoRequest a ep r ∈ evs → ep = env.BssOpenAPIEndpointInternational) ∧
        (Retry budget (retryFunc env action request) s).1.Endpoint
          = env.BssOpenAPIEndpointInternational := by
  intro budget
  induction budget with
  | zero =>
    intro s hs
    rw [Retry_zero_fst]
    obtain ⟨ht, he⟩ := retryFunc_shape env action request s
    rw [hs] at ht he
    refine ⟨?_, ?_⟩
    · exact if (retryFunc env action request s).1.trace
          = s.trace ++ [Event.DoRequest action env.BssOpenAPIEndpointInternational request]
        then [] else [Event.wait]
    · refine ⟨?_, ?_, by tauto⟩
      · rcases ht with ht | ht
        · simp [ht]
        · rw [if_neg (by rw [ht]; simp)]
          simp [ht]
      · intro a ep r hmem
        split at hmem <;> simp at hmem
  | succ n ih =>
    intro s hs
    obtain ⟨ht, he⟩ := retryFunc_shape env action request s
    rw [hs] at ht he
    have he1 : (retryFunc env action request s).1.Endpoint
        = env.BssOpenAPIEndpointInternational := by tauto
    rcases hr : (retryFunc env action request s).2 with _ | (err | err)
    · rw [Retry_success _ _ _ hr]
      refine ⟨if (retryFunc env action request s).1.trace
          = s.trace ++ [Event.DoRequest action env.BssOpenAPIEndpointInternational request]
        then [] else [Event.wait], ?_, ?_, he1⟩
      · rcases ht with ht | ht
        · simp [ht]
        · rw [if_neg (by rw [ht]; simp)]
          simp [ht]
      · intro a ep r hmem
        split at hmem <;> simp at hmem
    · rw [Retry_succ_retryable _ _ _ err hr]
      obtain ⟨evs, h1, h2, h3⟩ := ih _ he1
      rcases ht with ht | ht
      · refine ⟨Event.DoRequest action env.BssOpenAPIEndpointInternational request :: evs,
          ?_, ?_, h3⟩
        · rw [h1, ht]; simp
        · intro a ep r hmem
          rcases List.mem_cons.mp hmem with h | h
          · injection h with _ h _
          · exact h2 a ep r h
      · refine ⟨Event.wait :: Event.DoRequest action env.BssOpenAPIEndpointInternational request
          :: evs, ?_, ?_, h3⟩
        · rw [h1, ht]; simp
        · intro a ep r hmem
          rcases List.mem_cons.mp hmem with h | h
          · cases h
          · rcases List.mem_cons.mp h with h | h
            · injection h with _ h _
            · exact h2 a ep r h
    · rw [Retry_nonRetryable _ _ _ err hr]
      refine ⟨if (retryFunc env action request s).1.trace
          = s.trace ++ [Event.DoRequest action env.BssOpenAPIEndpointInternational request]
        then [] else [Event.wait], ?_, ?_, he1⟩
      · rcases ht with ht | ht
        · simp [ht]
        · rw [if_neg (by rw [ht]; simp)]
          simp [ht]
      · intro a ep r hmem
        split at hmem <;> simp at hmem

/-- Every event the loop adds to the trace is a backoff wait or a request for
the loop's own action and payload. -/
theorem Retry_trace (env : Env) (action : String) (request : Request) :
    ∀ (budget : Nat) (s : Invocation),
      ∃ evs, (Retry budget (retryFunc env action request) s).1.trace = s.trace ++ evs ∧
        ∀ e ∈ evs, e = Event.wait ∨ ∃ ep, e = Event.DoRequest action ep request := by
  intro budget
  induction budget with
  | zero =>
    intro s
    rw [Retry_zero_fst]
    rcases (retryFunc_shape env action request s).1 with ht | ht
    · exact ⟨_, ht, by simp⟩
    · exact ⟨_, ht, by simp⟩
  | succ n ih =>
    intro s
    have hstep : ∃ evs, (retryFunc env action request s).1.trace = s.trace ++ evs ∧
        ∀ e ∈ evs, e = Event.wait ∨ ∃ ep, e = Event.DoRequest action ep request := by
      rcases (retryFunc_shape env action request s).1 with ht | ht
      · exact ⟨_, ht, by simp⟩
      · exact ⟨_, ht, by simp⟩
    rcases hr : (retryFunc env action request s).2 with _ | (err | err)
    · rw [Retry_success _ _ _ hr]
      exact hstep
    · rw [Retry_succ_retryable _ _ _ err hr]
      obtain ⟨evs1, h1, h2⟩ := hstep
      obtain ⟨evs2, h3, h4⟩ := ih (retryFunc env action request s).1
      refine ⟨evs1 ++ evs2, by rw [h3, h1, List.append_assoc], ?_⟩
      intro e he
      rcases List.mem_append.mp he with h | h
      · exact h2 e h
      · exact h4 e h
    · rw [Retry_nonRetryable _ _ _ err hr]
      exact hstep

/-- C5: the retry step classifies every call outcome. A success stops the loop
with the response. A failure that `NeedRetry` accepts performs one backoff
wait, asks for a retry and keeps the endpoint. A failure that is not
retryable but carries "NotApplicable" sets the endpoint to the international
one and asks for a retry without a wait, so that the next attempt and every
later one target the international endpoint. Any other failure stops the loop
with that error and no further attempt. -/
theorem retryStep_classification (env : Env) (action : String) (request : Request)
    (s : Invocation) (budget : Nat) :
    (∀ response, env.DoRequest s.trace.length s.Endpoint action request = Except.ok response →
      retryFunc env action request s =
        ({ Endpoint := s.Endpoint, response := some response,
           trace := s.trace ++ [Event.DoRequest action s.Endpoint request] }, none) ∧
      Retry budget (retryFunc env action request) s =
        ({ Endpoint := s.Endpoint, response := some response,
           trace := s.trace ++ [Event.DoRequest action s.Endpoint request] }, none)) ∧
    (∀ err, env.DoRequest s.trace.length s.Endpoint action request = Except.error err →
      env.NeedRetry err = true →
      retryFunc env action request s =
        ({ Endpoint := s.Endpoint, response := none,
           trace := s.trace ++ [Event.DoRequest action s.Endpoint request] ++ [Event.wait] },
          some (RetryError.RetryableError err)) ∧
      Retry (budget + 1) (retryFunc env action request) s =
        Retry budget (retryFunc env action request)
          { Endpoint := s.Endpoint, response := none,
            trace := s.trace ++ [Event.DoRequest action s.Endpoint request] ++ [Event.wait] }) ∧
    (∀ err, env.DoRequest s.trace.length s.Endpoint action request = Except.error err →
      env.NeedRetry err = false → env.IsExpectedErrors err ["NotApplicable"] = true →
      retryFunc env action request s =
        ({ Endpoint := env.BssOpenAPIEndpointInternational, response := none,
           trace := s.trace ++ [Event.DoRequest action s.Endpoint request] },
          some (RetryError.RetryableError err)) ∧
      Retry (budget + 1) (retryFunc env action request) s =
        Retry budget (retryFunc env action request)
          { Endpoint := env.BssOpenAPIEndpointInternational, response := none,
            trace := s.trace ++ [Event.DoRequest action s.Endpoint request] } ∧
      ∃ later, (Retry (budget + 1) (retryFunc env action request) s).1.trace =
          s.trace ++ [Event.DoRequest action s.Endpoint request] ++
            Event.DoRequest action env.BssOpenAPIEndpointInternational request :: later ∧
        (∀ a ep r, Event.DoRequest a ep r ∈ later →
          ep = env.BssOpenAPIEndpointInternational) ∧
        (Retry (budget + 1) (retryFunc env action request) s).1.Endpoint =
          env.BssOpenAPIEndpointInternational) ∧
    (∀ err, env.DoRequest s.trace.length s.Endpoint action request = Except.error err →
      env.NeedRetry err = false → env.IsExpectedErrors err ["NotApplicable"] = false →
      retryFunc env action request s =
        ({ Endpoint := s.Endpoint, response := none,
           trace := s.trace ++ [Event.DoRequest action s.Endpoint request] },
          some (RetryError.NonRetryableError err)) ∧
      Retry budget (retryFunc env action request) s =
        ({ Endpoint := s.Endpoint, response := none,
           trace := s.trace ++ [Event.DoRequest action s.Endpoint request] }, some err)) := by
  refine ⟨?_, ?_, ?_, ?_⟩
  · intro response h
    have hf : retryFunc env action request s =
        ({ Endpoint := s.Endpoint, response := some response,
           trace := s.trace ++ [Event.DoRequest action s.Endpoint request] }, none) := by
      simp [retryFunc, h]
    refine ⟨hf, ?_⟩
    rw [Retry_success budget _ s (by rw [hf]), hf]
  · intro err h hneed
    have hf : retryFunc env action request s =
        ({ Endpoint := s.Endpoint, response := none,
           trace := s.trace ++ [Event.DoRequest action s.Endpoint request] ++ [Event.wait] },
          some (RetryError.RetryableError err)) := by
      simp [retryFunc, h, hneed]
    refine ⟨hf, ?_⟩
    rw [Retry_succ_retryable budget _ s err (by rw [hf]), hf]
  · intro err h hneed hexp
    have hf : retryFunc env action request s =
        ({ Endpoint := env.BssOpenAPIEndpointInternational, response := none,
           trace := s.trace ++ [Event.DoRequest action s.Endpoint request] },
          some (RetryError.RetryableError err)) := by
      simp [retryFunc, h, hneed, hexp]
    have hr : Retry (budget + 1) (retryFunc env action request) s =
        Retry budget (retryFunc env action request)
          { Endpoint := env.BssOpenAPIEndpointInternational, response := none,
            trace := s.trace ++ [Event.DoRequest action s.Endpoint request] } := by
      rw [Retry_succ_retryable budget _ s err (by rw [hf]), hf]
    refine ⟨hf, hr, ?_⟩
    rw [hr]
    exact Retry_sticky env action request budget _ rfl
  · intro err h hneed hexp
    have hf : retryFunc env action request s =
        ({ Endpoint := s.Endpoint, response := none,
           trace := s.trace ++ [Event.DoRequest action s.Endpoint request] },
          some (RetryError.NonRetryableError err)) := by
      simp [retryFunc, h, hneed, hexp]
    refine ⟨hf, ?_⟩
    rw [Retry_nonRetryable budget _ s err (by rw [hf]), hf]

/-- C10: when the lookup fails with a not-found error, Read returns success,
empties the identity, leaves every other attribute as it was and sends
nothing but the lookup (no billing query); when it fails with any other
error, Read returns that error and leaves the whole local resource as it
was. -/
theorem read_missing_instance (env : Env) (w : World) (err : Err)
    (h : env.DescribeAmqpInstance w.d.id = Except.error err) :
    (env.NotFoundError err = true →
      resourceAlicloudAmqpInstanceRead env w =
        ({ d := { w.d with id := "" },
           trace := w.trace ++ [Event.DescribeAmqpInstance w.d.id] }, Result.ok)) ∧
    (env.NotFoundError err = false →
      resourceAlicloudAmqpInstanceRead env w =
        ({ d := w.d, trace := w.trace ++ [Event.DescribeAmqpInstance w.d.id] },
          Result.error (Failure.WrapError err))) := by
  constructor
  · intro hnf
    simp [resourceAlicloudAmqpInstanceRead, ResourceData.Id, ResourceData.SetId, h, hnf]
  · intro hnf
    simp [resourceAlicloudAmqpInstanceRead, ResourceData.Id, h, hnf]

/-- C4 as stated fails: with `support_eip` set to `false`, a field that is not
present in the sense of the spec (set, but to its default value, so that
`GetOk` reports it as absent), Create still emits the `SupportEip` parameter,
with the token "eip_false". -/
theorem create_parameters_counterexample :
    (eipOffConfig.GetOk "support_eip").2 = false ∧
    createParameterMapList sampleEnv eipOffConfig =
      [parameter "Region" (Value.str "cn-hangzhou"), parameter "InstanceType" (Value.str "vip"),
        parameter "MaxTps" (Value.str "1000"), parameter "QueueCapacity" (Value.str "100"),
        parameter "SupportEip" (Value.str "eip_false"),
        parameter "StorageSize" (Value.str "200")] := by
  decide

theorem parameter_code (code : String) (value : Value) :
    (parameter code value).get "Code" = Value.str code := by
  simp [parameter, Object.get, List.lookup]

/-- The parameter list of Create, one optional element per code. -/
theorem createParameterMapList_eq (env : Env) (d : ResourceData) :
    createParameterMapList env d =
      [parameter "Region" (Value.str env.RegionId)] ++
      (if (d.GetOk "instance_type").2 then
        [parameter "InstanceType" (d.GetOk "instance_type").1] else []) ++
      (if (d.GetOk "max_eip_tps").2 then
        [parameter "MaxEipTps" (d.GetOk "max_eip_tps").1] else []) ++
      (if (d.GetOk "max_tps").2 then [parameter "MaxTps" (d.GetOk "max_tps").1] else []) ++
      (if (d.GetOk "queue_capacity").2 then
        [parameter "QueueCapacity" (d.GetOk "queue_capacity").1] else []) ++
      (if (d.GetOkExists "support_eip").2 then
        [parameter "SupportEip"
          (convertAmqpInstanceSupportEipRequest (d.GetOkExists "support_eip").1)] else []) ++
      (if (d.GetOkExists "storage_size").2 then
        [parameter "StorageSize" (d.GetOkExists "storage_size").1] else []) := by
  unfold createParameterMapList
  cases (d.GetOk "instance_type").2 <;> cases (d.GetOk "max_eip_tps").2 <;>
    cases (d.GetOk "max_tps").2 <;> cases (d.GetOk "queue_capacity").2 <;>
    cases (d.GetOkExists "support_eip").2 <;> cases (d.GetOkExists "storage_size").2 <;>
    rfl

/-- C4, amended: on the data the SDK hands to Create, where a string
attribute set to the empty string is reported as not set, the parameter list
of Create is an ordered sublist of the seven codes; `Region` is always there
with the client's region; `InstanceType`, `MaxEipTps`, `MaxTps`,
`QueueCapacity` and `StorageSize` are there exactly when their field is
present (set, and to a non-zero value); `SupportEip` is there exactly when
`support_eip` is set at all, also to `false`; each carries its field's value,
`SupportEip` translated; and the scenario's configuration gives the six
parameters of the spec. -/
theorem create_parameters (env : Env) (d : ResourceData)
    (hstorage : (d.GetOkExists "storage_size").2 = true →
      (d.GetOkExists "storage_size").1 ≠ Value.str "") :
    List.Sublist ((createParameterMapList env d).map (fun p => p.get "Code"))
      [Value.str "Region", Value.str "InstanceType", Value.str "MaxEipTps", Value.str "MaxTps",
        Value.str "QueueCapacity", Value.str "SupportEip", Value.str "StorageSize"] ∧
    (∀ p, p ∈ createParameterMapList env d ↔
      (p = parameter "Region" (Value.str env.RegionId) ∨
        ((d.GetOk "instance_type").2 = true ∧
          p = parameter "InstanceType" (d.GetOk "instance_type").1) ∨
        ((d.GetOk "max_eip_tps").2 = true ∧
          p = parameter "MaxEipTps" (d.GetOk "max_eip_tps").1) ∨
        ((d.GetOk "max_tps").2 = true ∧ p = parameter "MaxTps" (d.GetOk "max_tps").1) ∨
        ((d.GetOk "queue_capacity").2 = true ∧
          p = parameter "QueueCapacity" (d.GetOk "queue_capacity").1) ∨
        ((d.GetOkExists "support_eip").2 = true ∧
          p = parameter "SupportEip"
            (convertAmqpInstanceSupportEipRequest (d.GetOkExists "support_eip").1)) ∨
        ((d.GetOk "storage_size").2 = true ∧
          p = parameter "StorageSize" (d.GetOk "storage_size").1))) ∧
    createParameterMapList env scenarioConfig =
      [parameter "Region" (Value.str env.RegionId), parameter "InstanceType" (Value.str "vip"),
        parameter "MaxEipTps" (Value.str "50"), parameter "MaxTps" (Value.str "1000"),
        parameter "QueueCapacity" (Value.str "100"),
        parameter "SupportEip" (Value.str "eip_true")] := by
  have hsame : (d.GetOk "storage_size").2 = (d.GetOkExists "storage_size").2 := by
    have hz : (schemaType "storage_size").Zero = Value.str "" := by decide
    simp only [ResourceData.GetOk, ResourceData.GetOkExists, hz] at hstorage ⊢
    cases hex : ((d.getRaw "storage_size").Exists && !(d.getRaw "storage_size").Computed)
    · simp
    · simpa using hstorage hex
  have hval : (d.GetOk "storage_size").1 = (d.GetOkExists "storage_size").1 := rfl
  refine ⟨?_, ?_, rfl⟩
  · rw [createParameterMapList_eq]
    cases (d.GetOk "instance_type").2 <;> cases (d.GetOk "max_eip_tps").2 <;>
      cases (d.GetOk "max_tps").2 <;> cases (d.GetOk "queue_capacity").2 <;>
      cases (d.GetOkExists "support_eip").2 <;> cases (d.GetOkExists "storage_size").2 <;>
      simp only [List.map_append, List.map_cons, List.map_nil, parameter_code, if_true,
        Bool.false_eq_true, if_false, List.append_nil, List.cons_append, List.nil_append] <;>
      decide
  · intro p
    rw [createParameterMapList_eq, hsame, hval]
    cases (d.GetOk "instance_type").2 <;> cases (d.GetOk "max_eip_tps").2 <;>
      cases (d.GetOk "max_tps").2 <;> cases (d.GetOk "queue_capacity").2 <;>
      cases (d.GetOkExists "support_eip").2 <;> cases (d.GetOkExists "storage_size").2 <;>
      simp

/-- C4, at a concrete input: the create scenario with the EIP switched off and
a storage size of "200". -/
theorem create_parameters_witness :
    ((eipOffConfig.GetOkExists "storage_size").2 = true →
      (eipOffConfig.GetOkExists "storage_size").1 ≠ Value.str "") ∧
    parameter "SupportEip" (Value.str "eip_false") ∈
      createParameterMapList sampleEnv eipOffConfig ∧
    parameter "StorageSize" (Value.str "200") ∈
      createParameterMapList sampleEnv eipOffConfig :=
  ⟨by decide,
    ((create_parameters sampleEnv eipOffConfig (by decide)).2.1 _).mpr
      (Or.inr (Or.inr (Or.inr (Or.inr (Or.inr (Or.inl ⟨by decide, by decide⟩)))))),
    ((create_parameters sampleEnv eipOffConfig (by decide)).2.1 _).mpr
      (Or.inr (Or.inr (Or.inr (Or.inr (Or.inr (Or.inr ⟨by decide, by decide⟩))))))⟩

/-! ### Maps and traces -/

theorem lookup_mapSet_self {α : Type} (m : List (String × α)) (k : String) (v : α) :
    (mapSet m k v).lookup k = some v := by
  induction m with
  | nil => simp [mapSet, List.lookup]
  | cons kv rest ih =>
    obtain ⟨k1, v1⟩ := kv
    by_cases h : k1 = k
    · simp [mapSet, h, List.lookup]
    · have h2 : (k == k1) = false := by simpa using fun e => h e.symm
      simp [mapSet, h, List.lookup, h2, ih]

theorem lookup_mapSet_ne {α : Type} (m : List (String × α)) (k k2 : String) (v : α)
    (hne : k2 ≠ k) : (mapSet m k v).lookup k2 = m.lookup k2 := by
  induction m with
  | nil =>
    have h2 : (k2 == k) = false := by simpa using hne
    simp [mapSet, List.lookup, h2]
  | cons kv rest ih =>
    obtain ⟨k1, v1⟩ := kv
    by_cases h : k1 = k
    · subst h
      have h2 : (k2 == k1) = false := by simpa using hne
      simp [mapSet, List.lookup, h2]
    · by_cases h3 : k2 = k1
      · subst h3
        simp [mapSet, h, List.lookup]
      · have h4 : (k2 == k1) = false := by simpa using h3
        simp [mapSet, h, List.lookup, h4, ih]

theorem requests_append (t1 t2 : List Event) :
    requests (t1 ++ t2) = requests t1 ++ requests t2 := by
  simp [requests, List.filterMap_append]

/-- The requests a retried call adds to the trace all carry the call's own
action and payload. -/
theorem Retry_requests (env : Env) (action : String) (request : Request) (budget : Nat)
    (s : Invocation) :
    ∃ rs, requests (Retry budget (retryFunc env action request) s).1.trace
        = requests s.trace ++ rs ∧ ∀ ar ∈ rs, ar = (action, request) := by
  obtain ⟨evs, h1, h2⟩ := Retry_trace env action request budget s
  refine ⟨requests evs, by rw [h1, requests_append], ?_⟩
  intro ar har
  simp only [requests, List.mem_filterMap] at har
  obtain ⟨e, he, hsome⟩ := har
  rcases h2 e he with rfl | ⟨ep, rfl⟩
  · simp at hsome
  · simp at hsome
    exact hsome.symm

/-- A call that succeeds at once ends the loop after one request. -/
theorem Retry_of_ok (env : Env) (action : String) (request : Request) (budget : Nat)
    (s : Invocation) (response : Response)
    (h : env.DoRequest s.trace.length s.Endpoint action request = Except.ok response) :
    Retry budget (retryFunc env action request) s =
      ({ Endpoint := s.Endpoint, response := some response,
         trace := s.trace ++ [Event.DoRequest action s.Endpoint request] }, none) := by
  have hf : retryFunc env action request s =
      ({ Endpoint := s.Endpoint, response := some response,
         trace := s.trace ++ [Event.DoRequest action s.Endpoint request] }, none) := by
    simp [retryFunc, h]
  rw [Retry_success budget _ s (by rw [hf]), hf]

/-- Read sends the lookup and at most the billing query: no provisioning call. -/
theorem read_requests (env : Env) (w : World) :
    requests (resourceAlicloudAmqpInstanceRead env w).1.trace = requests w.trace := by
  unfold resourceAlicloudAmqpInstanceRead
  simp only
  split
  · split <;> simp [requests_append, requests]
  · split <;> simp [requests_append, requests]

/-- Read keeps the identity or empties it. -/
theorem read_id (env : Env) (w : World) :
    (resourceAlicloudAmqpInstanceRead env w).1.d.id = w.d.id ∨
      (resourceAlicloudAmqpInstanceRead env w).1.d.id = "" := by
  unfold resourceAlicloudAmqpInstanceRead
  simp only
  split
  · split
    · right; rfl
    · left; rfl
  · split
    · left; rfl
    · left
      simp only [ResourceData.Set]
      split <;> rfl

/-! ### The two parts of Update -/

theorem SetPartial_eq (d : ResourceData) (key : String) :
    ∃ keys, d.SetPartial key = { d with partialKeys := keys } := by
  obtain ⟨id, st, pl, wr, nw, po, pk⟩ := d
  cases po
  · exact ⟨pk, rfl⟩
  · exact ⟨pk ++ [key], rfl⟩

theorem SetPartial_eq_of (d : ResourceData) (keys : List String) (key : String) :
    ∃ keys2, ({ d with partialKeys := keys } : ResourceData).SetPartial key
      = { d with partialKeys := keys2 } := by
  obtain ⟨id, st, pl, wr, nw, po, pk⟩ := d
  cases po
  · exact ⟨keys, rfl⟩
  · exact ⟨keys ++ [key], rfl⟩

/-- The `update` flag of the renewal part is the disjunction of the four
change tests. -/
theorem setRenewalRequest_flag (d : ResourceData) (update : Bool) (request : Request)
    (h : setRenewalRequest d = some (update, request)) :
    update = (d.HasChange "renewal_status" || d.HasChange "payment_type"
      || d.HasChange "renewal_duration" || d.HasChange "renewal_duration_unit") := by
  unfold setRenewalRequest at h
  cases h1 : d.HasChange "renewal_status" <;> cases h2 : d.HasChange "payment_type" <;>
    cases h3 : d.HasChange "renewal_duration" <;>
    cases h4 : d.HasChange "renewal_duration_unit" <;>
    simp only [h1, h2, h3, h4, if_true, if_false, Bool.false_eq_true] at h <;>
    first
      | (injection h with h; injection h with h _; exact h.symm)
      | (split at h
         · injection h with h; injection h with h _; exact h.symm
         · exact absurd h (by simp))

/-- With a string in `renewal_duration_unit`, the renewal part is built. -/
theorem setRenewalRequest_typed (d : ResourceData) (unit : String)
    (h : d.Get "renewal_duration_unit" = Value.str unit) :
    ∃ update request, setRenewalRequest d = some (update, request) := by
  unfold setRenewalRequest
  simp only [h]
  split
  · exact ⟨_, _, rfl⟩
  · exact ⟨_, _, rfl⟩

theorem setRenewalRequest_unchanged (d : ResourceData)
    (h : d.HasChange "renewal_duration_unit" = false) :
    ∃ update request, setRenewalRequest d = some (update, request) := by
  unfold setRenewalRequest
  simp only [h]
  exact ⟨_, _, rfl⟩
/-- With `max_eip_tps` absent and `support_eip` true or unset, the capacity
part stops at the configuration error. -/
theorem modifyInstanceReq_misconfigured (d : ResourceData)
    (habsent : (d.GetOk "max_eip_tps").2 = false)
    (heip : (d.GetOkExists "support_eip").2 = false ∨
      (d.GetOkExists "support_eip").1 = Value.bool true) :
    ∃ v, modifyInstanceReq d =
      Except.error (Result.error (Failure.RequiredWhen "max_eip_tps" "support_eip" v)) := by
  unfold modifyInstanceReq
  simp only [habsent, Bool.false_eq_true, if_false]
  by_cases hex : (d.GetOkExists "support_eip").2 = true
  · rcases heip with h | h
    · rw [h] at hex; exact absurd hex (by simp)
    · simp only [hex, h, Bool.not_true, Bool.false_eq_true, if_false]
      exact ⟨_, rfl⟩
  · simp only [hex, Bool.not_eq_true] at *
    simp only [hex, Bool.not_false, if_true]
    exact ⟨_, rfl⟩

/-- The parameters of the capacity part, one optional element per code. -/
theorem modifyInstanceReq_ok (d : ResourceData) (update : Bool) (request : Request)
    (h : modifyInstanceReq d = Except.ok (update, request)) :
    update = (d.HasChange "max_eip_tps" || d.HasChange "max_tps" || d.HasChange "queue_capacity"
      || (d.HasChange "support_eip" || d.IsNewResource)) ∧
    request.lookup "Parameter" = some (Entry.maps
      ((if (d.GetOk "max_eip_tps").2 then
          [parameter "MaxEipTps" (d.GetOk "max_eip_tps").1] else []) ++
        (if (d.GetOk "max_tps").2 then [parameter "MaxTps" (d.GetOk "max_tps").1] else []) ++
        (if (d.GetOk "queue_capacity").2 then
          [parameter "QueueCapacity" (d.GetOk "queue_capacity").1] else []) ++
        (if (d.GetOkExists "support_eip").2 then
          [parameter "SupportEip"
            (convertAmqpInstanceSupportEipRequest (d.GetOkExists "support_eip").1)] else []))) ∧
    request.lookup "ClientToken" = none := by
  unfold modifyInstanceReq at h
  simp only at h
  split at h
  · exact absurd h (by simp)
  · rename_i params hchecked
    injection h with h
    injection h with hu hr
    subst hu hr
    have hparams : params =
        (if (d.GetOk "max_eip_tps").2 then
          [parameter "MaxEipTps" (d.GetOk "max_eip_tps").1] else []) := by
      split at hchecked
      · injection hchecked with hc
        rename_i h1
        simp [h1, ← hc]
      · rename_i h1
        split at hchecked
        · exact absurd hchecked (by simp)
        · split at hchecked
          · exact absurd hchecked (by simp)
          · injection hchecked with hc
            simp [h1, ← hc]
          · exact absurd hchecked (by simp)
    subst hparams
    refine ⟨?_, ?_, ?_⟩
    · cases d.HasChange "max_eip_tps" <;> cases d.HasChange "max_tps" <;>
        cases d.HasChange "queue_capacity" <;> cases d.HasChange "support_eip" <;>
        cases d.IsNewResource <;> rfl
    · rw [lookup_mapSet_ne _ _ _ _ (by decide), lookup_mapSet_ne _ _ _ _ (by decide),
        lookup_mapSet_ne _ _ _ _ (by decide), lookup_mapSet_self]
      cases (d.GetOk "max_eip_tps").2 <;> cases (d.GetOk "max_tps").2 <;>
        cases (d.GetOk "queue_capacity").2 <;> cases (d.GetOkExists "support_eip").2 <;> rfl
    · rw [lookup_mapSet_ne _ _ _ _ (by decide), lookup_mapSet_ne _ _ _ _ (by decide),
        lookup_mapSet_ne _ _ _ _ (by decide), lookup_mapSet_ne _ _ _ _ (by decide)]
      rfl

/-- When the configuration check passes, the capacity part is built. -/
theorem modifyInstanceReq_checked (d : ResourceData)
    (hcheck : (d.GetOk "max_eip_tps").2 = true ∨
      ((d.GetOkExists "support_eip").2 = true ∧
        (d.GetOkExists "support_eip").1 = Value.bool false)) :
    ∃ update request, modifyInstanceReq d = Except.ok (update, request) := by
  unfold modifyInstanceReq
  by_cases h1 : (d.GetOk "max_eip_tps").2 = true
  · simp only [h1, if_true]
    exact ⟨_, _, rfl⟩
  · rcases hcheck with h | ⟨h2, h3⟩
    · exact absurd h h1
    · simp only [h1, h2, h3, Bool.not_true, Bool.false_eq_true, if_false]
      exact ⟨_, _, rfl⟩
/-- The `SetRenewal` block only adds `SetRenewal` requests with the renewal
payload, touches nothing of the local resource but the list of saved keys,
returns early only with an error, and does nothing when `update` is false. -/
theorem updateSetRenewal_shape (env : Env) (w : World) (update : Bool) (request : Request) :
    ∃ keys rs, (updateSetRenewal env w update request).1.d = { w.d with partialKeys := keys } ∧
      requests (updateSetRenewal env w update request).1.trace = requests w.trace ++ rs ∧
      (∀ ar ∈ rs, ar = ("SetRenewal", request)) ∧
      (∀ r, (updateSetRenewal env w update request).2 = some r → ∃ e, r = Result.error e) ∧
      (update = false → updateSetRenewal env w update request = (w, none)) := by
  unfold updateSetRenewal
  cases update with
  | false => exact ⟨w.d.partialKeys, [], rfl, by simp, by simp, by simp, by simp⟩
  | true =>
    simp only [if_true]
    cases env.NewBssopenapiClient with
    | error err => exact ⟨w.d.partialKeys, [], rfl, by simp, by simp, by simp, by simp⟩
    | ok endpoint =>
      simp only
      obtain ⟨rs, h1, h2⟩ := Retry_requests env "SetRenewal" request env.TimeoutUpdate
        { Endpoint := endpoint, response := none, trace := w.trace }
      rcases hR : Retry env.TimeoutUpdate (retryFunc env "SetRenewal" request)
        { Endpoint := endpoint, response := none, trace := w.trace } with ⟨s, _ | err⟩
      · rw [hR] at h1
        simp only
        split
        · exact ⟨w.d.partialKeys, rs, rfl, h1, h2, by simp, by simp⟩
        · obtain ⟨k1, e1⟩ := SetPartial_eq w.d "renewal_status"
          obtain ⟨k2, e2⟩ := SetPartial_eq_of w.d k1 "payment_type"
          obtain ⟨k3, e3⟩ := SetPartial_eq_of w.d k2 "renewal_duration"
          obtain ⟨k4, e4⟩ := SetPartial_eq_of w.d k3 "renewal_duration_unit"
          refine ⟨k4, rs, ?_, h1, h2, by simp, by simp⟩
          simp only [e1, e2, e3, e4]
      · rw [hR] at h1
        exact ⟨w.d.partialKeys, rs, rfl, h1, h2, by simp, by simp⟩

/-- The `ModifyInstance` block only adds `ModifyInstance` requests, whose
payload is the capacity payload, with `ModifyType` added when it is set;
it touches nothing of the local resource but the list of saved keys, returns
early only with an error, and does nothing when `update` is false. -/
theorem updateModifyInstance_shape (env : Env) (w : World) (update : Bool)
    (request req : Request) :
    ∃ keys rs, (updateModifyInstance env w update request req).1.d
        = { w.d with partialKeys := keys } ∧
      requests (updateModifyInstance env w update request req).1.trace = requests w.trace ++ rs ∧
      (∀ ar ∈ rs, ar.1 = "ModifyInstance" ∧
        (ar.2 = req ∨ ∃ v, ar.2 = mapSet req "ModifyType" v)) ∧
      (∀ r, (updateModifyInstance env w update request req).2 = some r →
        ∃ e, r = Result.error e) ∧
      (update = false → updateModifyInstance env w update request req = (w, none)) := by
  unfold updateModifyInstance
  cases update with
  | false => exact ⟨w.d.partialKeys, [], rfl, by simp, by simp, by simp, by simp⟩
  | true =>
    simp only [if_true]
    cases env.NewBssopenapiClient with
    | error err => exact ⟨w.d.partialKeys, [], rfl, by simp, by simp, by simp, by simp⟩
    | ok endpoint =>
      simp only
      generalize hreq : (if (w.d.GetOk "modify_type").2 = true then
        mapSet req "ModifyType" (Entry.val (w.d.GetOk "modify_type").1) else req) = req2
      have hreq2 : req2 = req ∨ ∃ v, req2 = mapSet req "ModifyType" v := by
        rw [← hreq]
        split
        · exact Or.inr ⟨_, rfl⟩
        · exact Or.inl rfl
      obtain ⟨rs, h1, h2⟩ := Retry_requests env "ModifyInstance" req2 env.TimeoutUpdate
        { Endpoint := endpoint, response := none, trace := w.trace }
      have h3 : ∀ ar ∈ rs, ar.1 = "ModifyInstance" ∧
          (ar.2 = req ∨ ∃ v, ar.2 = mapSet req "ModifyType" v) := by
        intro ar har
        rw [h2 ar har]
        exact ⟨rfl, hreq2⟩
      rcases hR : Retry env.TimeoutUpdate (retryFunc env "ModifyInstance" req2)
        { Endpoint := endpoint, response := none, trace := w.trace } with ⟨s, _ | err⟩
      · rw [hR] at h1
        simp only
        split
        · exact ⟨w.d.partialKeys, rs, rfl, h1, h3, by simp, by simp⟩
        · obtain ⟨k1, e1⟩ := SetPartial_eq w.d "max_eip_tps"
          obtain ⟨k2, e2⟩ := SetPartial_eq_of w.d k1 "max_tps"
          obtain ⟨k3, e3⟩ := SetPartial_eq_of w.d k2 "payment_type"
          obtain ⟨k4, e4⟩ := SetPartial_eq_of w.d k3 "queue_capacity"
          obtain ⟨k5, e5⟩ := SetPartial_eq_of w.d k4 "support_eip"
          refine ⟨k5, rs, ?_, h1, h3, by simp, by simp⟩
          simp only [e1, e2, e3, e4, e5]
      · rw [hR] at h1
        exact ⟨w.d.partialKeys, rs, rfl, h1, h3, by simp, by simp⟩

/-- The loop always starts with one request to the current endpoint. -/
theorem Retry_first (env : Env) (action : String) (request : Request) (budget : Nat)
    (s : Invocation) :
    ∃ later, (Retry budget (retryFunc env action request) s).1.trace
      = s.trace ++ Event.DoRequest action s.Endpoint request :: later := by
  have hstep : ∃ later, (retryFunc env action request s).1.trace
      = s.trace ++ Event.DoRequest action s.Endpoint request :: later := by
    rcases (retryFunc_shape env action request s).1 with ht | ht
    · exact ⟨[], ht⟩
    · exact ⟨[Event.wait], ht⟩
  cases budget with
  | zero =>
    rw [Retry_zero_fst]
    exact hstep
  | succ n =>
    rcases hr : (retryFunc env action request s).2 with _ | (err | err)
    · rw [Retry_success _ _ _ hr]
      exact hstep
    · rw [Retry_succ_retryable _ _ _ err hr]
      obtain ⟨later1, h1⟩ := hstep
      obtain ⟨evs, h2, _⟩ := Retry_trace env action request n (retryFunc env action request s).1
      exact ⟨later1 ++ evs, by rw [h2, h1]; simp⟩
    · rw [Retry_nonRetryable _ _ _ err hr]
      exact hstep

/-- With `update` set and the client built, the `SetRenewal` block starts by
sending `SetRenewal` with the renewal payload to the client's endpoint. -/
theorem updateSetRenewal_first (env : Env) (w : World) (request : Request) (endpoint : String)
    (hclient : env.NewBssopenapiClient = Except.ok endpoint) :
    ∃ later, (updateSetRenewal env w true request).1.trace
      = w.trace ++ Event.DoRequest "SetRenewal" endpoint request :: later := by
  obtain ⟨later, h⟩ := Retry_first env "SetRenewal" request env.TimeoutUpdate
    { Endpoint := endpoint, response := none, trace := w.trace }
  refine ⟨later, ?_⟩
  unfold updateSetRenewal
  simp only [if_true, hclient]
  rcases hR : Retry env.TimeoutUpdate (retryFunc env "SetRenewal" request)
    { Endpoint := endpoint, response := none, trace := w.trace } with ⟨s1, _ | err⟩
  · rw [hR] at h
    simp only
    split
    · exact h
    · exact h
  · rw [hR] at h
    exact h

/-- The paths through Update: the failed assertion of the renewal part, an
early return from the `SetRenewal` block, the configuration error or failed
assertion of the capacity part, an early return from the `ModifyInstance`
block, or the final Read. -/
theorem update_cases (env : Env) (w : World) :
    (setRenewalRequest w.d = none ∧
      resourceAlicloudAmqpInstanceUpdate env w =
        ({ d := w.d.Partial true, trace := w.trace }, Result.panic)) ∨
    (∃ u req, setRenewalRequest w.d = some (u, req) ∧
      ((∃ w1 r, updateSetRenewal env { d := w.d.Partial true, trace := w.trace } u req
            = (w1, some r) ∧
          resourceAlicloudAmqpInstanceUpdate env w = (w1, r)) ∨
        (∃ w1, updateSetRenewal env { d := w.d.Partial true, trace := w.trace } u req
            = (w1, none) ∧
          ((∃ r, modifyInstanceReq w1.d = Except.error r ∧
              resourceAlicloudAmqpInstanceUpdate env w = (w1, r)) ∨
            (∃ u2 req2, modifyInstanceReq w1.d = Except.ok (u2, req2) ∧
              ((∃ w2 r, updateModifyInstance env w1 u2 req req2 = (w2, some r) ∧
                  resourceAlicloudAmqpInstanceUpdate env w = (w2, r)) ∨
                (∃ w2, updateModifyInstance env w1 u2 req req2 = (w2, none) ∧
                  resourceAlicloudAmqpInstanceUpdate env w =
                    resourceAlicloudAmqpInstanceRead env
                      { d := w2.d.Partial false, trace := w2.trace }))))))) := by
  have e0 : setRenewalRequest (w.d.Partial true) = setRenewalRequest w.d := rfl
  unfold resourceAlicloudAmqpInstanceUpdate
  simp only [e0]
  rcases h1 : setRenewalRequest w.d with _ | ⟨u, req⟩
  · exact Or.inl ⟨rfl, rfl⟩
  · refine Or.inr ⟨u, req, rfl, ?_⟩
    simp only
    rcases h2 : updateSetRenewal env { d := w.d.Partial true, trace := w.trace } u req
      with ⟨w1, _ | r⟩
    · refine Or.inr ⟨w1, rfl, ?_⟩
      simp only
      rcases h3 : modifyInstanceReq w1.d with r | ⟨u2, req2⟩
      · exact Or.inl ⟨r, rfl, rfl⟩
      · refine Or.inr ⟨u2, req2, rfl, ?_⟩
        simp only
        rcases h4 : updateModifyInstance env w1 u2 req req2 with ⟨w2, _ | r⟩
        · exact Or.inr ⟨w2, rfl, rfl⟩
        · exact Or.inl ⟨w2, r, rfl, rfl⟩
    · exact Or.inl ⟨w1, r, rfl, rfl⟩

/-- The provisioning calls of Update: first `SetRenewal` requests carrying the
renewal payload, then `ModifyInstance` requests carrying the capacity payload
(with `ModifyType` added when it is set), and nothing else. -/
theorem update_requests (env : Env) (w : World) :
    ∃ rs1 rs2, requests (resourceAlicloudAmqpInstanceUpdate env w).1.trace
        = requests w.trace ++ rs1 ++ rs2 ∧
      (∀ ar ∈ rs1, ar.1 = "SetRenewal" ∧ ∃ u, setRenewalRequest w.d = some (u, ar.2)) ∧
      (∀ ar ∈ rs2, ar.1 = "ModifyInstance" ∧
        ∃ u req, modifyInstanceReq w.d = Except.ok (u, req) ∧
          (ar.2 = req ∨ ∃ v, ar.2 = mapSet req "ModifyType" v)) := by
  rcases update_cases env w with ⟨_, hrun⟩ | ⟨u, req, hreq, hrest⟩
  · exact ⟨[], [], by rw [hrun]; simp, by simp, by simp⟩
  · obtain ⟨k1, rs1, hd1, ht1, hr1, _, _⟩ :=
      updateSetRenewal_shape env { d := w.d.Partial true, trace := w.trace } u req
    have hrs1 : ∀ ar ∈ rs1, ar.1 = "SetRenewal" ∧ ∃ u, setRenewalRequest w.d = some (u, ar.2) := by
      intro ar har
      rw [hr1 ar har]
      exact ⟨rfl, u, hreq⟩
    rcases hrest with ⟨w1, r, hS, hrun⟩ | ⟨w1, hS, hrest⟩
    · rw [hS] at ht1
      exact ⟨rs1, [], by rw [hrun]; simpa using ht1, hrs1, by simp⟩
    · rw [hS] at ht1 hd1
      simp only at ht1 hd1
      rcases hrest with ⟨r, hM, hrun⟩ | ⟨u2, req2, hM, hrest⟩
      · exact ⟨rs1, [], by rw [hrun]; simpa using ht1, hrs1, by simp⟩
      · have hM2 : modifyInstanceReq w.d = Except.ok (u2, req2) := by
          rw [← hM, hd1]; rfl
        obtain ⟨k2, rs2, hd2, ht2, hr2, _, _⟩ := updateModifyInstance_shape env w1 u2 req req2
        have hrs2 : ∀ ar ∈ rs2, ar.1 = "ModifyInstance" ∧
            ∃ u req, modifyInstanceReq w.d = Except.ok (u, req) ∧
              (ar.2 = req ∨ ∃ v, ar.2 = mapSet req "ModifyType" v) := by
          intro ar har
          exact ⟨(hr2 ar har).1, u2, req2, hM2, (hr2 ar har).2⟩
        rcases hrest with ⟨w2, r, hU, hrun⟩ | ⟨w2, hU, hrun⟩
        · rw [hU] at ht2
          refine ⟨rs1, rs2, ?_, hrs1, hrs2⟩
          rw [hrun]
          simp only at ht2 ⊢
          rw [ht2, ht1]
        · rw [hU] at ht2
          refine ⟨rs1, rs2, ?_, hrs1, hrs2⟩
          rw [hrun, read_requests]
          simp only at ht2 ⊢
          rw [ht2, ht1]

/-- C3 as stated fails: with `max_eip_tps` absent, `support_eip` true and a
changed `renewal_duration`, Update ends in the configuration error only after
it has sent `SetRenewal`. -/
theorem update_eipCheck_counterexample :
    (misconfigured.GetOk "max_eip_tps").2 = false ∧
    misconfigured.GetOkExists "support_eip" = (Value.bool true, true) ∧
    (resourceAlicloudAmqpInstanceUpdate sampleEnv { d := misconfigured, trace := [] }).2 =
      Result.error (Failure.RequiredWhen "max_eip_tps" "support_eip" (Value.bool true)) ∧
    requestActions
      (resourceAlicloudAmqpInstanceUpdate sampleEnv { d := misconfigured, trace := [] }).1.trace
      = ["SetRenewal"] := by
  decide

/-- C3, amended: with `max_eip_tps` absent and `support_eip` true or unset,
Update never returns success, returns an error whenever `renewal_duration_unit`
holds a string, and sends no provisioning call other than `SetRenewal` (so
never `ModifyInstance`). When none of the four renewal fields changed it sends
nothing at all and returns the configuration error. When one of them changed,
`renewal_duration_unit` holds a string and the client is built, the first
thing Update does is to send `SetRenewal` with the renewal payload: the check
is reached only after that call. -/
theorem update_eipCheck (env : Env) (w : World)
    (habsent : (w.d.GetOk "max_eip_tps").2 = false)
    (heip : (w.d.GetOkExists "support_eip").2 = false ∨
      (w.d.GetOkExists "support_eip").1 = Value.bool true) :
    (resourceAlicloudAmqpInstanceUpdate env w).2 ≠ Result.ok ∧
    ((∃ unit, w.d.Get "renewal_duration_unit" = Value.str unit) →
      ∃ e, (resourceAlicloudAmqpInstanceUpdate env w).2 = Result.error e) ∧
    (∃ rs, requests (resourceAlicloudAmqpInstanceUpdate env w).1.trace = requests w.trace ++ rs ∧
      ∀ ar ∈ rs, ar.1 = "SetRenewal") ∧
    (w.d.HasChange "renewal_status" = false → w.d.HasChange "payment_type" = false →
      w.d.HasChange "renewal_duration" = false →
      w.d.HasChange "renewal_duration_unit" = false →
      (resourceAlicloudAmqpInstanceUpdate env w).1.trace = w.trace ∧
      ∃ v, (resourceAlicloudAmqpInstanceUpdate env w).2 =
        Result.error (Failure.RequiredWhen "max_eip_tps" "support_eip" v)) ∧
    ((w.d.HasChange "renewal_status" || w.d.HasChange "payment_type"
        || w.d.HasChange "renewal_duration" || w.d.HasChange "renewal_duration_unit") = true →
      ∀ endpoint unit, env.NewBssopenapiClient = Except.ok endpoint →
        w.d.Get "renewal_duration_unit" = Value.str unit →
        ∃ request later, setRenewalRequest w.d = some (true, request) ∧
          (resourceAlicloudAmqpInstanceUpdate env w).1.trace =
            w.trace ++ Event.DoRequest "SetRenewal" endpoint request :: later) := by
  obtain ⟨v, hv⟩ := modifyInstanceReq_misconfigured w.d habsent heip
  rcases update_cases env w with ⟨hnone, hrun⟩ | ⟨u, req, hreq, hrest⟩
  · refine ⟨by rw [hrun]; simp, ?_, ⟨[], by rw [hrun]; simp, by simp⟩, ?_, ?_⟩
    · rintro ⟨unit, hu⟩
      obtain ⟨u, req, h⟩ := setRenewalRequest_typed w.d unit hu
      rw [hnone] at h
      exact absurd h (by simp)
    · intro _ _ _ h4
      obtain ⟨u, req, h⟩ := setRenewalRequest_unchanged w.d h4
      rw [hnone] at h
      exact absurd h (by simp)
    · intro _ endpoint unit _ hu
      obtain ⟨u, req, h⟩ := setRenewalRequest_typed w.d unit hu
      rw [hnone] at h
      exact absurd h (by simp)
  · obtain ⟨k1, rs1, hd1, ht1, hr1, he1, hf1⟩ :=
      updateSetRenewal_shape env { d := w.d.Partial true, trace := w.trace } u req
    have hrs1 : ∀ ar ∈ rs1, ar.1 = "SetRenewal" := by
      intro ar har
      rw [hr1 ar har]
    have hflag := setRenewalRequest_flag w.d u req hreq
    have hfirst : (w.d.HasChange "renewal_status" || w.d.HasChange "payment_type"
          || w.d.HasChange "renewal_duration" || w.d.HasChange "renewal_duration_unit") = true →
        ∀ endpoint, env.NewBssopenapiClient = Except.ok endpoint →
          ∃ request later, setRenewalRequest w.d = some (true, request) ∧
            (updateSetRenewal env { d := w.d.Partial true, trace := w.trace } u req).1.trace =
              w.trace ++ Event.DoRequest "SetRenewal" endpoint request :: later := by
      intro hchanged endpoint hclient
      rw [hchanged] at hflag
      subst hflag
      obtain ⟨later, hl⟩ := updateSetRenewal_first env
        { d := w.d.Partial true, trace := w.trace } req endpoint hclient
      exact ⟨req, later, hreq, hl⟩
    rcases hrest with ⟨w1, r, hS, hrun⟩ | ⟨w1, hS, hrest⟩
    · rw [hS] at ht1 he1 hfirst
      obtain ⟨e, he⟩ := he1 r rfl
      refine ⟨by rw [hrun, he]; simp, fun _ => ⟨e, by rw [hrun, he]⟩,
        ⟨rs1, by rw [hrun]; simpa using ht1, hrs1⟩, ?_, ?_⟩
      · intro h1 h2 h3 h4
        rw [h1, h2, h3, h4] at hflag
        rw [hf1 hflag] at hS
        exact absurd hS (by simp)
      · intro hchanged endpoint unit hclient _
        rw [hrun]
        exact hfirst hchanged endpoint hclient
    · rw [hS] at ht1 hd1 hfirst
      simp only at ht1 hd1
      have hM : modifyInstanceReq w1.d =
          Except.error (Result.error (Failure.RequiredWhen "max_eip_tps" "support_eip" v)) := by
        rw [← hv, hd1]; rfl
      rcases hrest with ⟨r, hM2, hrun⟩ | ⟨u2, req2, hM2, _⟩
      · rw [hM] at hM2
        injection hM2 with hM2
        subst hM2
        refine ⟨by rw [hrun]; simp, fun _ => ⟨_, by rw [hrun]⟩,
          ⟨rs1, by rw [hrun]; simpa using ht1, hrs1⟩, ?_, ?_⟩
        · intro h1 h2 h3 h4
          rw [h1, h2, h3, h4] at hflag
          rw [hf1 hflag] at hS
          injection hS with hS _
          refine ⟨by rw [hrun, ← hS], v, by rw [hrun]⟩
        · intro hchanged endpoint unit hclient _
          rw [hrun]
          exact hfirst hchanged endpoint hclient
      · rw [hM] at hM2
        exact absurd hM2 (by simp)

/-- C3, at a concrete input: the update of `misconfigured` on the sample
remote side never succeeds and starts by sending `SetRenewal`. -/
theorem update_eipCheck_witness :
    (misconfigured.GetOk "max_eip_tps").2 = false ∧
    (misconfigured.GetOkExists "support_eip").1 = Value.bool true ∧
    (resourceAlicloudAmqpInstanceUpdate sampleEnv { d := misconfigured, trace := [] }).2
      ≠ Result.ok ∧
    ∃ request later, setRenewalRequest misconfigured = some (true, request) ∧
      (resourceAlicloudAmqpInstanceUpdate sampleEnv { d := misconfigured, trace := [] }).1.trace =
        [] ++ Event.DoRequest "SetRenewal" "business.aliyuncs.com" request :: later :=
  ⟨by decide, by decide,
    (update_eipCheck sampleEnv { d := misconfigured, trace := [] } (by decide)
      (Or.inr (by decide))).1,
    (update_eipCheck sampleEnv { d := misconfigured, trace := [] } (by decide)
      (Or.inr (by decide))).2.2.2.2 (by decide) "business.aliyuncs.com" "Month" rfl
      (by decide)⟩

/-- What the renewal payload holds: `RenewalStatus` always, the three other
field entries exactly when their field changed, and no client token. -/
theorem setRenewalRequest_content (d : ResourceData) (update : Bool) (request : Request)
    (h : setRenewalRequest d = some (update, request)) :
    request.lookup "RenewalStatus" = some (Entry.val (d.Get "renewal_status")) ∧
    (request.lookup "SubscriptionType").isSome = d.HasChange "payment_type" ∧
    (request.lookup "RenewalPeriod").isSome = d.HasChange "renewal_duration" ∧
    (request.lookup "RenewalPeriodUnit").isSome = d.HasChange "renewal_duration_unit" ∧
    request.lookup "ClientToken" = none := by
  unfold setRenewalRequest at h
  cases h2 : d.HasChange "payment_type" <;>
    cases h3 : d.HasChange "renewal_duration" <;>
    cases h4 : d.HasChange "renewal_duration_unit" <;>
    simp only [h2, h3, h4, if_true, if_false, Bool.false_eq_true] at h <;>
    first
      | (injection h with h; injection h with _ h; subst h
         simp [mapSet, List.lookup])
      | (split at h
         · injection h with h; injection h with _ h; subst h
           simp [mapSet, List.lookup]
         · exact absurd h (by simp))

/-- C9 as stated fails: in the update of `changedConfig`, where only `max_tps`
and `renewal_duration` changed, the `SetRenewal` payload still holds
`RenewalStatus` and the `ModifyInstance` payload still holds the parameters
`MaxEipTps`, `QueueCapacity` and `SupportEip`. -/
theorem update_changedFields_counterexample :
    changedConfig.HasChange "renewal_status" = false ∧
    changedConfig.HasChange "max_eip_tps" = false ∧
    changedConfig.HasChange "queue_capacity" = false ∧
    changedConfig.HasChange "support_eip" = false ∧
    requests
      (resourceAlicloudAmqpInstanceUpdate sampleEnv { d := changedConfig, trace := [] }).1.trace =
      [("SetRenewal",
          [("InstanceIDs", Entry.val (Value.str "amqp-123")),
            ("RenewalStatus", Entry.val (Value.str "AutoRenewal")),
            ("ProductCode", Entry.val (Value.str "ons")),
            ("ProductType", Entry.val (Value.str "ons_onsproxy_pre")),
            ("RenewalPeriod", Entry.val (Value.int 2))]),
        ("ModifyInstance",
          [("InstanceId", Entry.val (Value.str "amqp-123")),
            ("Parameter", Entry.maps
              [parameter "MaxEipTps" (Value.str "50"), parameter "MaxTps" (Value.str "2000"),
                parameter "QueueCapacity" (Value.str "100"),
                parameter "SupportEip" (Value.str "eip_true")]),
            ("SubscriptionType", Entry.val (Value.str "Subscription")),
            ("ProductCode", Entry.val (Value.str "ons")),
            ("ProductType", Entry.val (Value.str "ons_onsproxy_pre"))])] := by
  decide

/-- C9, amended: the provisioning calls of Update are `SetRenewal` requests
followed by `ModifyInstance` requests. Every `SetRenewal` payload holds
`SubscriptionType`, `RenewalPeriod` and `RenewalPeriodUnit` exactly when
`payment_type`, `renewal_duration` and `renewal_duration_unit` changed, and
always holds `RenewalStatus` with the current `renewal_status`. The `Parameter`
list of every `ModifyInstance` payload holds `MaxEipTps`, `MaxTps` and
`QueueCapacity` exactly when their field is set to a non-zero value and
`SupportEip` exactly when `support_eip` is set, whether or not they changed. -/
theorem update_changedFields (env : Env) (w : World) :
    ∃ rs1 rs2, requests (resourceAlicloudAmqpInstanceUpdate env w).1.trace
        = requests w.trace ++ rs1 ++ rs2 ∧
      (∀ ar ∈ rs1, ar.1 = "SetRenewal" ∧
        ar.2.lookup "RenewalStatus" = some (Entry.val (w.d.Get "renewal_status")) ∧
        (ar.2.lookup "SubscriptionType").isSome = w.d.HasChange "payment_type" ∧
        (ar.2.lookup "RenewalPeriod").isSome = w.d.HasChange "renewal_duration" ∧
        (ar.2.lookup "RenewalPeriodUnit").isSome = w.d.HasChange "renewal_duration_unit") ∧
      (∀ ar ∈ rs2, ar.1 = "ModifyInstance" ∧
        ar.2.lookup "Parameter" = some (Entry.maps
          ((if (w.d.GetOk "max_eip_tps").2 then
              [parameter "MaxEipTps" (w.d.GetOk "max_eip_tps").1] else []) ++
            (if (w.d.GetOk "max_tps").2 then
              [parameter "MaxTps" (w.d.GetOk "max_tps").1] else []) ++
            (if (w.d.GetOk "queue_capacity").2 then
              [parameter "QueueCapacity" (w.d.GetOk "queue_capacity").1] else []) ++
            (if (w.d.GetOkExists "support_eip").2 then
              [parameter "SupportEip"
                (convertAmqpInstanceSupportEipRequest (w.d.GetOkExists "support_eip").1)]
              else [])))) := by
  obtain ⟨rs1, rs2, ht, h1, h2⟩ := update_requests env w
  refine ⟨rs1, rs2, ht, ?_, ?_⟩
  · intro ar har
    obtain ⟨ha, u, hu⟩ := h1 ar har
    obtain ⟨c1, c2, c3, c4, _⟩ := setRenewalRequest_content w.d u ar.2 hu
    exact ⟨ha, c1, c2, c3, c4⟩
  · intro ar har
    obtain ⟨ha, u, req, hreq, hor⟩ := h2 ar har
    obtain ⟨_, hp, _⟩ := modifyInstanceReq_ok w.d u req hreq
    refine ⟨ha, ?_⟩
    rcases hor with h | ⟨v, h⟩
    · rw [h, hp]
    · rw [h, lookup_mapSet_ne _ _ _ _ (by decide), hp]

/-- On a remote side where the client is built and every call succeeds at once
with code "Success", the `SetRenewal` block sends one request when `update` is
set, none otherwise, and control goes on. -/
theorem updateSetRenewal_ok (env : Env) (w : World) (update : Bool) (request : Request)
    (endpoint : String) (hclient : env.NewBssopenapiClient = Except.ok endpoint)
    (hcall : ∀ n ep action request, ∃ response,
      env.DoRequest n ep action request = Except.ok response ∧
        fmtSprint response.Code = "Success") :
    ∃ keys, updateSetRenewal env w update request =
      ({ d := { w.d with partialKeys := keys },
         trace := w.trace ++
           (if update then [Event.DoRequest "SetRenewal" endpoint request] else []) },
        none) := by
  unfold updateSetRenewal
  cases update with
  | false => exact ⟨w.d.partialKeys, by simp⟩
  | true =>
    obtain ⟨response, hr, hcode⟩ := hcall w.trace.length endpoint "SetRenewal" request
    obtain ⟨k1, e1⟩ := SetPartial_eq w.d "renewal_status"
    obtain ⟨k2, e2⟩ := SetPartial_eq_of w.d k1 "payment_type"
    obtain ⟨k3, e3⟩ := SetPartial_eq_of w.d k2 "renewal_duration"
    obtain ⟨k4, e4⟩ := SetPartial_eq_of w.d k3 "renewal_duration_unit"
    refine ⟨k4, ?_⟩
    simp only [if_true, hclient]
    rw [Retry_of_ok env "SetRenewal" request env.TimeoutUpdate
      { Endpoint := endpoint, response := none, trace := w.trace } response hr]
    simp only [responseCode, Option.map_some', Option.getD_some, hcode, ne_eq, not_true_eq_false, if_false,
      e1, e2, e3, e4]

/-- On such a remote side the `ModifyInstance` block sends one request when
`update` is set, none otherwise, and control goes on. -/
theorem updateModifyInstance_ok (env : Env) (w : World) (update : Bool)
    (request req : Request) (endpoint : String)
    (hclient : env.NewBssopenapiClient = Except.ok endpoint)
    (hcall : ∀ n ep action request, ∃ response,
      env.DoRequest n ep action request = Except.ok response ∧
        fmtSprint response.Code = "Success") :
    ∃ keys req2, updateModifyInstance env w update request req =
      ({ d := { w.d with partialKeys := keys },
         trace := w.trace ++
           (if update then [Event.DoRequest "ModifyInstance" endpoint req2] else []) },
        none) := by
  unfold updateModifyInstance
  cases update with
  | false => exact ⟨w.d.partialKeys, req, by simp⟩
  | true =>
    generalize hreq : (if (w.d.GetOk "modify_type").2 = true then
      mapSet req "ModifyType" (Entry.val (w.d.GetOk "modify_type").1) else req) = req2
    obtain ⟨response, hr, hcode⟩ := hcall w.trace.length endpoint "ModifyInstance" req2
    obtain ⟨k1, e1⟩ := SetPartial_eq w.d "max_eip_tps"
    obtain ⟨k2, e2⟩ := SetPartial_eq_of w.d k1 "max_tps"
    obtain ⟨k3, e3⟩ := SetPartial_eq_of w.d k2 "payment_type"
    obtain ⟨k4, e4⟩ := SetPartial_eq_of w.d k3 "queue_capacity"
    obtain ⟨k5, e5⟩ := SetPartial_eq_of w.d k4 "support_eip"
    refine ⟨k5, req2, ?_⟩
    simp only [if_true, hclient, hreq]
    rw [Retry_of_ok env "ModifyInstance" req2 env.TimeoutUpdate
      { Endpoint := endpoint, response := none, trace := w.trace } response hr]
    simp only [responseCode, Option.map_some', Option.getD_some, hcode, ne_eq, not_true_eq_false, if_false,
      e1, e2, e3, e4, e5]

theorem requestActions_append (t1 t2 : List Event) :
    requestActions (t1 ++ t2) = requestActions t1 ++ requestActions t2 := by
  simp [requestActions, requests_append]

/-- C8: when the client is built, the configuration check passes,
`renewal_duration_unit` holds a string and every remote call succeeds on its
first attempt with code "Success", the provisioning calls of Update are:
`SetRenewal` once if one of `renewal_status`, `payment_type`,
`renewal_duration`, `renewal_duration_unit` changed and not at all otherwise,
followed by `ModifyInstance` once if one of `max_eip_tps`, `max_tps`,
`queue_capacity`, `support_eip` changed or the resource is new and not at all
otherwise. -/
theorem update_issues_when_needed (env : Env) (w : World) (endpoint unit : String)
    (hclient : env.NewBssopenapiClient = Except.ok endpoint)
    (hcall : ∀ n ep action request, ∃ response,
      env.DoRequest n ep action request = Except.ok response ∧
        fmtSprint response.Code = "Success")
    (hcheck : (w.d.GetOk "max_eip_tps").2 = true ∨
      ((w.d.GetOkExists "support_eip").2 = true ∧
        (w.d.GetOkExists "support_eip").1 = Value.bool false))
    (hunit : w.d.Get "renewal_duration_unit" = Value.str unit) :
    requestActions (resourceAlicloudAmqpInstanceUpdate env w).1.trace =
      requestActions w.trace ++
        (if (w.d.HasChange "renewal_status" || w.d.HasChange "payment_type"
            || w.d.HasChange "renewal_duration" || w.d.HasChange "renewal_duration_unit")
          then ["SetRenewal"] else []) ++
        (if (w.d.HasChange "max_eip_tps" || w.d.HasChange "max_tps"
            || w.d.HasChange "queue_capacity"
            || (w.d.HasChange "support_eip" || w.d.IsNewResource))
          then ["ModifyInstance"] else []) := by
  obtain ⟨u0, req0, h0⟩ := setRenewalRequest_typed w.d unit hunit
  obtain ⟨um, reqm, hm⟩ := modifyInstanceReq_checked w.d hcheck
  have hf0 := setRenewalRequest_flag w.d u0 req0 h0
  have hfm := (modifyInstanceReq_ok w.d um reqm hm).1
  rw [← hf0, ← hfm]
  rcases update_cases env w with ⟨hnone, _⟩ | ⟨u, req, hreq, hrest⟩
  · rw [hnone] at h0
    exact absurd h0 (by simp)
  · rw [h0] at hreq
    injection hreq with hreq
    injection hreq with hu hr
    subst hu hr
    obtain ⟨k1, hS1⟩ := updateSetRenewal_ok env { d := w.d.Partial true, trace := w.trace }
      u0 req0 endpoint hclient hcall
    rcases hrest with ⟨w1, r, hS, _⟩ | ⟨w1, hS, hrest⟩
    · rw [hS1] at hS
      exact absurd hS (by simp)
    · rw [hS1] at hS
      injection hS with hS _
      subst hS
      have hM : modifyInstanceReq
          ({ w.d.Partial true with partialKeys := k1 } : ResourceData)
          = Except.ok (um, reqm) := by
        rw [← hm]; rfl
      rcases hrest with ⟨r, hM2, _⟩ | ⟨u2, req2, hM2, hrest⟩
      · rw [hM] at hM2
        exact absurd hM2 (by simp)
      · rw [hM] at hM2
        injection hM2 with hM2
        injection hM2 with hu hr
        subst hu hr
        obtain ⟨k2, req3, hU1⟩ := updateModifyInstance_ok env
          { d := { w.d.Partial true with partialKeys := k1 },
            trace := w.trace ++
              (if u0 then [Event.DoRequest "SetRenewal" endpoint req0] else []) }
          um req0 reqm endpoint hclient hcall
        rcases hrest with ⟨w2, r, hU, _⟩ | ⟨w2, hU, hrun⟩
        · rw [hU1] at hU
          exact absurd hU (by simp)
        · rw [hU1] at hU
          injection hU with hU _
          subst hU
          rw [hrun]
          simp only [requestActions, read_requests]
          cases u0 <;> cases um <;> simp [requests, requests_append]

/-- C8, at a concrete input: the update of `changedConfig` on the sample
remote side sends `SetRenewal`, then `ModifyInstance`. -/
theorem update_issues_when_needed_witness :
    requestActions
      (resourceAlicloudAmqpInstanceUpdate sampleEnv { d := changedConfig, trace := [] }).1.trace
      = ["SetRenewal", "ModifyInstance"] :=
  update_issues_when_needed sampleEnv { d := changedConfig, trace := [] }
    "business.aliyuncs.com" "Month" rfl (fun _ _ _ _ => ⟨_, rfl, rfl⟩)
    (Or.inl (by decide)) (by decide)

/-- C10, at concrete inputs: a lookup that reports the instance gone, and one
that fails for another reason. -/
theorem read_missing_instance_witness :
    resourceAlicloudAmqpInstanceRead goneEnv { d := changedConfig, trace := [] } =
      ({ d := { changedConfig with id := "" },
         trace := [Event.DescribeAmqpInstance "amqp-123"] }, Result.ok) ∧
    resourceAlicloudAmqpInstanceRead brokenEnv { d := changedConfig, trace := [] } =
      ({ d := changedConfig, trace := [Event.DescribeAmqpInstance "amqp-123"] },
        Result.error (Failure.WrapError { code := "InternalError", message := "" })) :=
  ⟨(read_missing_instance goneEnv { d := changedConfig, trace := [] }
      { code := "InstanceNotExist", message := "" } rfl).1 (by decide),
    (read_missing_instance brokenEnv { d := changedConfig, trace := [] }
      { code := "InternalError", message := "" } rfl).2 (by decide)⟩

/-- C5, at a concrete input: on the remote side that answers "NotApplicable"
everywhere but on the international endpoint, the first step swaps the
endpoint without a wait and the next request goes to the international
endpoint. -/
theorem retryStep_classification_witness :
    retryFunc mismatchEnv "CreateInstance" []
        { Endpoint := "business.aliyuncs.com", response := none, trace := [] } =
      ({ Endpoint := "business.ap-southeast-1.aliyuncs.com", response := none,
         trace := [Event.DoRequest "CreateInstance" "business.aliyuncs.com" []] },
        some (RetryError.RetryableError { code := "NotApplicable", message := "" })) ∧
    (Retry 3 (retryFunc mismatchEnv "CreateInstance" [])
        { Endpoint := "business.aliyuncs.com", response := none, trace := [] }).1.Endpoint =
      "business.ap-southeast-1.aliyuncs.com" :=
  ⟨((retryStep_classification mismatchEnv "CreateInstance" []
      { Endpoint := "business.aliyuncs.com", response := none, trace := [] } 2).2.2.1
      { code := "NotApplicable", message := "" } rfl (by decide) (by decide)).1,
    (((retryStep_classification mismatchEnv "CreateInstance" []
      { Endpoint := "business.aliyuncs.com", response := none, trace := [] } 2).2.2.1
      { code := "NotApplicable", message := "" } rfl (by decide) (by decide)).2.2).elim
      fun _ h => h.2.2⟩

/-! ### Create -/

/-- The paths through Create once the client is built: a failed call, a
response without code "Success", a response without a data map, a failed
readiness poll, or the final Read. -/
theorem create_cases (env : Env) (w : World) (endpoint : String)
    (hclient : env.NewBssopenapiClient = Except.ok endpoint) :
    (∃ err, (createInvoke env endpoint w).2 = some err ∧
      resourceAlicloudAmqpInstanceCreate env w =
        ({ d := w.d, trace := (createInvoke env endpoint w).1.trace },
          Result.error (Failure.WrapErrorf err "DefaultErrorMsg"
            ["alicloud_amqp_instance", "CreateInstance", "AlibabaCloudSdkGoERROR"]))) ∨
    ((createInvoke env endpoint w).2 = none ∧
      ((fmtSprint (responseCode (createInvoke env endpoint w).1.response) ≠ "Success" ∧
          resourceAlicloudAmqpInstanceCreate env w =
            ({ d := w.d, trace := (createInvoke env endpoint w).1.trace },
              Result.error (Failure.failed "CreateInstance"
                (createInvoke env endpoint w).1.response))) ∨
        (fmtSprint (responseCode (createInvoke env endpoint w).1.response) = "Success" ∧
          ((responseData (createInvoke env endpoint w).1.response = none ∧
              resourceAlicloudAmqpInstanceCreate env w =
                ({ d := w.d, trace := (createInvoke env endpoint w).1.trace }, Result.panic)) ∨
            (∃ data, responseData (createInvoke env endpoint w).1.response = some data ∧
              ((∃ err, env.WaitForState (fmtSprint (data.get "InstanceId")) = some err ∧
                  resourceAlicloudAmqpInstanceCreate env w =
                    ({ d := { w.d with id := fmtSprint (data.get "InstanceId") },
                       trace := (createInvoke env endpoint w).1.trace ++
                         [Event.WaitForState (fmtSprint (data.get "InstanceId"))] },
                      Result.error (Failure.WrapErrorf err "IdMsg"
                        [fmtSprint (data.get "InstanceId")]))) ∨
                (env.WaitForState (fmtSprint (data.get "InstanceId")) = none ∧
                  resourceAlicloudAmqpInstanceCreate env w =
                    resourceAlicloudAmqpInstanceRead env
                      { d := { w.d with id := fmtSprint (data.get "InstanceId") },
                        trace := (createInvoke env endpoint w).1.trace ++
                          [Event.WaitForState (fmtSprint (data.get "InstanceId"))] }))))))) := by
  unfold resourceAlicloudAmqpInstanceCreate
  simp only [hclient]
  rcases hI : createInvoke env endpoint w with ⟨s, _ | err⟩
  · refine Or.inr ⟨rfl, ?_⟩
    simp only
    by_cases hc : fmtSprint (responseCode s.response) = "Success"
    · refine Or.inr ⟨hc, ?_⟩
      simp only [hc, ne_eq, not_true_eq_false, if_false]
      rcases hd : responseData s.response with _ | data
      · exact Or.inl ⟨rfl, rfl⟩
      · refine Or.inr ⟨data, rfl, ?_⟩
        simp only [ResourceData.SetId, ResourceData.Id]
        rcases hw : env.WaitForState (fmtSprint (data.get "InstanceId")) with _ | err
        · exact Or.inr ⟨rfl, rfl⟩
        · exact Or.inl ⟨err, rfl, rfl⟩
    · refine Or.inl ⟨hc, ?_⟩
      simp only [hc, ne_eq, not_false_eq_true, if_true]
  · exact Or.inl ⟨err, rfl, rfl⟩

/-- C6 as stated fails in both directions: when the readiness poll fails,
Create returns an error and the identity is "amqp-123"; when the read-back
finds the instance gone, Create returns success and the identity is empty. -/
theorem create_identity_counterexample :
    ((resourceAlicloudAmqpInstanceCreate stuckEnv { d := scenarioConfig, trace := [] }).2 =
        Result.error
          (Failure.WrapErrorf { code := "Failed", message := "" } "IdMsg" ["amqp-123"]) ∧
      (resourceAlicloudAmqpInstanceCreate stuckEnv
        { d := scenarioConfig, trace := [] }).1.d.id = "amqp-123") ∧
    ((resourceAlicloudAmqpInstanceCreate goneEnv { d := scenarioConfig, trace := [] }).2 =
        Result.ok ∧
      (resourceAlicloudAmqpInstanceCreate goneEnv
        { d := scenarioConfig, trace := [] }).1.d.id = "") := by
  decide

/-- C6, amended: starting without an identity, (1) when the client cannot be
built, the call fails or the response code is not "Success", Create returns
an error and the local resource is as before, without identity; (2) when the
response has code "Success" and a data map but the readiness poll fails,
Create returns an error naming the instance and the identity is the rendering
of the response's `InstanceId`; (3) an identity that is set on return is that
rendering, from a call that succeeded with code "Success"; (4) when Create
returns success, the call succeeded with code "Success", the poll succeeded,
and the identity is that rendering or was emptied by the read-back. -/
theorem create_identity (env : Env) (w : World) (hid : w.d.id = "") :
    (∀ err, env.NewBssopenapiClient = Except.error err →
      resourceAlicloudAmqpInstanceCreate env w = (w, Result.error (Failure.WrapError err))) ∧
    (∀ endpoint, env.NewBssopenapiClient = Except.ok endpoint →
      ((createInvoke env endpoint w).2 ≠ none ∨
          fmtSprint (responseCode (createInvoke env endpoint w).1.response) ≠ "Success" →
        (∃ e, (resourceAlicloudAmqpInstanceCreate env w).2 = Result.error e) ∧
          (resourceAlicloudAmqpInstanceCreate env w).1.d = w.d) ∧
      (∀ data err, (createInvoke env endpoint w).2 = none →
        fmtSprint (responseCode (createInvoke env endpoint w).1.response) = "Success" →
        responseData (createInvoke env endpoint w).1.response = some data →
        env.WaitForState (fmtSprint (data.get "InstanceId")) = some err →
        (resourceAlicloudAmqpInstanceCreate env w).2 =
            Result.error (Failure.WrapErrorf err "IdMsg" [fmtSprint (data.get "InstanceId")]) ∧
          (resourceAlicloudAmqpInstanceCreate env w).1.d =
            { w.d with id := fmtSprint (data.get "InstanceId") }) ∧
      ((resourceAlicloudAmqpInstanceCreate env w).1.d.id ≠ "" →
        ∃ data, (createInvoke env endpoint w).2 = none ∧
          fmtSprint (responseCode (createInvoke env endpoint w).1.response) = "Success" ∧
          responseData (createInvoke env endpoint w).1.response = some data ∧
          (resourceAlicloudAmqpInstanceCreate env w).1.d.id =
            fmtSprint (data.get "InstanceId")) ∧
      ((resourceAlicloudAmqpInstanceCreate env w).2 = Result.ok →
        ∃ data, (createInvoke env endpoint w).2 = none ∧
          fmtSprint (responseCode (createInvoke env endpoint w).1.response) = "Success" ∧
          responseData (createInvoke env endpoint w).1.response = some data ∧
          env.WaitForState (fmtSprint (data.get "InstanceId")) = none ∧
          ((resourceAlicloudAmqpInstanceCreate env w).1.d.id =
              fmtSprint (data.get "InstanceId") ∨
            (resourceAlicloudAmqpInstanceCreate env w).1.d.id = ""))) := by
  constructor
  · intro err hclient
    simp [resourceAlicloudAmqpInstanceCreate, hclient]
  · intro endpoint hclient
    rcases create_cases env w endpoint hclient with
      ⟨err, hI, hrun⟩ | ⟨hI, ⟨hc, hrun⟩ | ⟨hc, ⟨hd, hrun⟩ | ⟨data, hd, ⟨err, hw, hrun⟩ | ⟨hw, hrun⟩⟩⟩⟩
    · refine ⟨fun _ => ⟨⟨_, by rw [hrun]⟩, by rw [hrun]⟩, ?_, ?_, ?_⟩
      · intro data err2 h
        rw [hI] at h
        exact absurd h (by simp)
      · intro h
        rw [hrun] at h
        exact absurd hid h
      · intro h
        rw [hrun] at h
        exact absurd h (by simp)
    · refine ⟨fun _ => ⟨⟨_, by rw [hrun]⟩, by rw [hrun]⟩, ?_, ?_, ?_⟩
      · intro data err2 _ h
        exact absurd h hc
      · intro h
        rw [hrun] at h
        exact absurd hid h
      · intro h
        rw [hrun] at h
        exact absurd h (by simp)
    · refine ⟨?_, ?_, ?_, ?_⟩
      · rintro (h | h)
        · exact absurd hI h
        · exact absurd hc h
      · intro data err2 _ _ h
        rw [hd] at h
        exact absurd h (by simp)
      · intro h
        rw [hrun] at h
        exact absurd hid h
      · intro h
        rw [hrun] at h
        exact absurd h (by simp)
    · refine ⟨?_, ?_, ?_, ?_⟩
      · rintro (h | h)
        · exact absurd hI h
        · exact absurd hc h
      · intro data2 err2 _ _ h hw2
        rw [hd] at h
        injection h with h
        subst h
        rw [hw] at hw2
        injection hw2 with hw2
        subst hw2
        exact ⟨by rw [hrun], by rw [hrun]⟩
      · intro _
        exact ⟨data, hI, hc, hd, by rw [hrun]⟩
      · intro h
        rw [hrun] at h
        exact absurd h (by simp)
    · refine ⟨?_, ?_, ?_, ?_⟩
      · rintro (h | h)
        · exact absurd hI h
        · exact absurd hc h
      · intro data2 err2 _ _ h hw2
        rw [hd] at h
        injection h with h
        subst h
        rw [hw] at hw2
        exact absurd hw2 (by simp)
      · intro h
        refine ⟨data, hI, hc, hd, ?_⟩
        rw [hrun] at h ⊢
        rcases read_id env
          { d := { w.d with id := fmtSprint (data.get "InstanceId") },
            trace := (createInvoke env endpoint w).1.trace ++
              [Event.WaitForState (fmtSprint (data.get "InstanceId"))] } with h2 | h2
        · exact h2
        · exact absurd h2 h
      · intro _
        refine ⟨data, hI, hc, hd, hw, ?_⟩
        rw [hrun]
        exact read_id env _

/-- C6, at a concrete input: the create scenario on the remote side whose
readiness poll fails. -/
theorem create_identity_witness :
    scenarioConfig.id = "" ∧
    (resourceAlicloudAmqpInstanceCreate stuckEnv { d := scenarioConfig, trace := [] }).1.d =
      { scenarioConfig with id := "amqp-123" } :=
  ⟨rfl,
    (((create_identity stuckEnv { d := scenarioConfig, trace := [] } rfl).2
      "business.aliyuncs.com" rfl).2.1 [("InstanceId", Value.str "amqp-123")]
      { code := "Failed", message := "" } (by decide) (by decide) (by decide) (by decide)).2⟩

/-- C7 on the code: the payload of Create holds the client token built from
"CreateInstance", but no provisioning call of Update holds a `ClientToken`
entry: the renewal payload never gets one, and line 359 stores the token built
from "ModifyInstance" in the renewal map after its use instead of in the
payload that is sent. At the update of `tpsConfig` the one call,
`ModifyInstance`, is sent without a token. -/
theorem clientToken_of_requests :
    (∀ (env : Env) (d : ResourceData), (createRequest env d).lookup "ClientToken" =
      some (Entry.val (Value.str (env.buildClientToken "CreateInstance")))) ∧
    (∀ (env : Env) (w : World),
      ∃ rs, requests (resourceAlicloudAmqpInstanceUpdate env w).1.trace = requests w.trace ++ rs ∧
        ∀ ar ∈ rs, ar.2.lookup "ClientToken" = none) ∧
    (requests (resourceAlicloudAmqpInstanceUpdate sampleEnv
        { d := tpsConfig, trace := [] }).1.trace).map
      (fun ar => (ar.1, ar.2.lookup "ClientToken")) =
      [("ModifyInstance", none)] := by
  refine ⟨?_, ?_, by decide⟩
  · intro env d
    unfold createRequest
    simp only
    rw [lookup_mapSet_self]
  · intro env w
    obtain ⟨rs1, rs2, ht, h1, h2⟩ := update_requests env w
    refine ⟨rs1 ++ rs2, by rw [ht, List.append_assoc], ?_⟩
    intro ar har
    rcases List.mem_append.mp har with har | har
    · obtain ⟨_, u, hu⟩ := h1 ar har
      exact (setRenewalRequest_content w.d u ar.2 hu).2.2.2.2
    · obtain ⟨_, u, req, hreq, hor⟩ := h2 ar har
      obtain ⟨_, _, hn⟩ := modifyInstanceReq_ok w.d u req hreq
      rcases hor with h | ⟨v, h⟩
      · rw [h, hn]
      · rw [h, lookup_mapSet_ne _ _ _ _ (by decide), hn]

end AmqpInstance
